import Mathlib

/-!
Echo operator: the reconcile state machine.

A shallow embedding of `internal/controller/echo_controller.go` and
`api/v1alpha1/echo_types.go`.

The controller talks to the cluster through `client.Client`; here the cluster
is an explicit state (`Cluster`) threaded through every call, and the outcome
of each client call of one pass is fixed by an environment (`Env`): a call
either fails with the error the environment injects or acts on the stored
objects.  Every `Status().Update` request is appended to a log, so that "the
pass issued no status update" is a statement about the state.
-/

namespace EchoOperator

/-! ## api/v1alpha1/echo_types.go -/

/-- The Go type `EchoPhase` is a string type; any string can be stored. -/
abbrev EchoPhase := String

def EchoPhasePending : EchoPhase := "Pending"
def EchoPhaseRunning : EchoPhase := "Running"
def EchoPhaseCompleted : EchoPhase := "Completed"
def EchoPhaseFailed : EchoPhase := "Failed"

/-- The fields of `metav1.Condition`. -/
structure Condition where
  Type_ : String
  Status : String
  Reason : String
  Message : String
  LastTransitionTime : Nat
  deriving DecidableEq, Repr

structure EchoSpec where
  Message : String
  deriving DecidableEq, Repr

structure EchoStatus where
  Phase : EchoPhase
  JobName : String
  Message : String
  Conditions : List Condition
  LastExecutionTime : Option Nat
  deriving DecidableEq, Repr

/-- The type `Echo`: of `metav1.ObjectMeta` the identity (`Namespace`, `Name`)
and the version token `ResourceVersion` are kept. -/
structure Echo where
  Namespace : String
  Name : String
  ResourceVersion : Nat
  Spec : EchoSpec
  Status : EchoStatus
  deriving DecidableEq, Repr

/-! ## The client: errors, cluster state, `Get` and `Status().Update` -/

/-- The type `types.NamespacedName`. -/
structure NamespacedName where
  Namespace : String
  Name : String
  deriving DecidableEq, Repr

/-- The type `ctrl.Request`. -/
structure Request where
  NamespacedName : NamespacedName
  deriving DecidableEq, Repr

/-- The type `ctrl.Result`; `RequeueAfter` is a duration, zero when unset. -/
structure Result where
  Requeue : Bool
  RequeueAfter : Nat
  deriving DecidableEq, Repr

/-- The zero value `ctrl.Result{}`. -/
def Result.empty : Result := { Requeue := false, RequeueAfter := 0 }

/-- The value `ctrl.Result{Requeue: true}`. -/
def Result.requeue : Result := { Requeue := true, RequeueAfter := 0 }

/-- The reasons of `metav1.StatusReason` that matter to a store client.
`Unknown` stands for the empty reason and for every reason string outside the
library's table of known reasons; it is also the reason of an error that is not
an API status error. -/
inductive StatusReason where
  | Unknown
  | NotFound
  | Conflict
  | Timeout
  | ServerTimeout
  | ServiceUnavailable
  | InternalError
  deriving DecidableEq, Repr

/-- A Go `error` value as returned by the client: the reason and the HTTP code
of its status (code 0 for an error that carries no status) and its text. -/
structure APIError where
  Reason : StatusReason
  Code : Nat
  Message : String
  deriving DecidableEq, Repr

/-- Membership in the table `knownReasons` of `k8s.io/apimachinery/pkg/api/errors`. -/
def knownReason (r : StatusReason) : Bool :=
  match r with
  | StatusReason.Unknown => false
  | _ => true

/-- The predicate `errors.IsNotFound`: the reason is NotFound, or the reason is
not a known one and the HTTP code is 404. -/
def IsNotFound (err : APIError) : Bool :=
  err.Reason == StatusReason.NotFound || (!knownReason err.Reason && err.Code == 404)

/-- The predicate `errors.IsConflict`: the reason is Conflict, or the reason is
not a known one and the HTTP code is 409. -/
def IsConflict (err : APIError) : Bool :=
  err.Reason == StatusReason.Conflict || (!knownReason err.Reason && err.Code == 409)

/-- What the job backend of the specification would report for the job of a
resource.  The source never creates or inspects a job (`handlePendingEcho` and
`handleRunningEcho` carry a TODO in its place), so no definition below reads
a value of this type. -/
inductive JobState where
  | Running
  | Succeeded
  | Failed
  | Absent
  deriving DecidableEq, Repr

/-- The cluster as the controller sees it: the stored Echo objects and the log
of the `Status().Update` requests issued so far (latest first). -/
structure Cluster where
  objects : List Echo
  statusUpdates : List Echo
  deriving DecidableEq, Repr

/-- The behaviour of the collaborators during one pass: the error, if any,
with which the store fails the `Get` call, the error, if any, with which it
rejects the `Status().Update` call, and the state of the job of the resource
as a job backend would report it. -/
structure Env where
  getErr : Option APIError
  updateErr : Option APIError
  job : JobState
  deriving DecidableEq, Repr

/-- The identity of a stored object. -/
def Echo.key (e : Echo) : NamespacedName := { Namespace := e.Namespace, Name := e.Name }

/-- The stored object of a given identity, if any. -/
def Cluster.lookup (c : Cluster) (key : NamespacedName) : Option Echo :=
  c.objects.find? (fun o => decide (o.key = key))

/-- The call `r.Get(ctx, key, echo)`: the injected error, or the stored object,
or a NotFound error when no object has that identity. -/
def Get (fault : Option APIError) (c : Cluster) (key : NamespacedName) : Except APIError Echo :=
  match fault with
  | some err => Except.error err
  | none =>
    match c.lookup key with
    | some o => Except.ok o
    | none => Except.error { Reason := StatusReason.NotFound, Code := 404, Message := "echoes \"" ++ key.Name ++ "\" not found" }

/-- A committed status write to one stored object: the status subresource is
replaced and the version token advances; spec and identity are the stored ones. -/
def writeStatus (echo : Echo) (o : Echo) : Echo :=
  if o.key = echo.key then
    { o with Status := echo.Status, ResourceVersion := o.ResourceVersion + 1 }
  else o

/-- The call `r.Status().Update(ctx, echo)`.  The request is logged.  It fails
with the injected error; with NotFound when the object is gone; with Conflict
when the version token of `echo` is not the stored one; otherwise the status of
the stored object is replaced.  A failed call leaves the stored objects as they
were. -/
def StatusUpdate (fault : Option APIError) (c : Cluster) (echo : Echo) : Option APIError × Cluster :=
  let logged : Cluster := { c with statusUpdates := echo :: c.statusUpdates }
  match fault with
  | some err => (some err, logged)
  | none =>
    match c.lookup echo.key with
    | none => (some { Reason := StatusReason.NotFound, Code := 404, Message := "echoes \"" ++ echo.Name ++ "\" not found" }, logged)
    | some o =>
      if o.ResourceVersion = echo.ResourceVersion then
        (none, { logged with objects := c.objects.map (writeStatus echo) })
      else
        (some { Reason := StatusReason.Conflict, Code := 409, Message := "the object has been modified" }, logged)

/-! ## internal/controller/echo_controller.go -/

/-- What one call of `Reconcile` (or of a handler) returns, `(ctrl.Result, error)`,
together with the cluster state it leaves. -/
structure Outcome where
  result : Result
  err : Option APIError
  cluster : Cluster
  deriving DecidableEq, Repr

/-- The function `handleNewEcho`. -/
def handleNewEcho (env : Env) (c : Cluster) (echo : Echo) : Outcome :=
  let echo : Echo := { echo with Status := { echo.Status with
    Phase := EchoPhasePending,
    Message := "Echo resource created, preparing to execute" } }
  match StatusUpdate env.updateErr c echo with
  | (some err, c1) => { result := Result.empty, err := some err, cluster := c1 }
  | (none, c1) => { result := Result.requeue, err := none, cluster := c1 }

/-- The function `handlePendingEcho`. -/
def handlePendingEcho (env : Env) (c : Cluster) (echo : Echo) : Outcome :=
  let jobName : String := "echo-job-" ++ echo.Name
  let echo : Echo := { echo with Status := { echo.Status with
    Phase := EchoPhaseRunning,
    JobName := jobName,
    Message := "Job " ++ jobName ++ " created for message: " ++ echo.Spec.Message } }
  match StatusUpdate env.updateErr c echo with
  | (some err, c1) => { result := Result.empty, err := some err, cluster := c1 }
  | (none, c1) => { result := Result.requeue, err := none, cluster := c1 }

/-- The function `handleRunningEcho`. -/
def handleRunningEcho (env : Env) (c : Cluster) (echo : Echo) : Outcome :=
  let echo : Echo := { echo with Status := { echo.Status with
    Phase := EchoPhaseCompleted,
    Message := "Job " ++ echo.Status.JobName ++ " completed successfully. Message \x27" ++
      echo.Spec.Message ++ "\x27 was echoed." } }
  match StatusUpdate env.updateErr c echo with
  | (some err, c1) => { result := Result.empty, err := some err, cluster := c1 }
  | (none, c1) => { result := Result.empty, err := none, cluster := c1 }

/-- The function `Reconcile`. -/
def Reconcile (env : Env) (c : Cluster) (req : Request) : Outcome :=
  match Get env.getErr c req.NamespacedName with
  | Except.error err =>
    if IsNotFound err then
      { result := Result.empty, err := none, cluster := c }
    else
      { result := Result.empty, err := some err, cluster := c }
  | Except.ok echo =>
    if echo.Status.Phase = "" then handleNewEcho env c echo
    else if echo.Status.Phase = EchoPhasePending then handlePendingEcho env c echo
    else if echo.Status.Phase = EchoPhaseRunning then handleRunningEcho env c echo
    else if echo.Status.Phase = EchoPhaseCompleted then
      { result := Result.empty, err := none, cluster := c }
    else if echo.Status.Phase = EchoPhaseFailed then
      { result := Result.empty, err := none, cluster := c }
    else handleNewEcho env c echo

/-! ## Sample data -/

/-- A stored Echo named `demo` in namespace `default` with the given status. -/
def sampleEcho (st : EchoStatus) : Echo :=
  { Namespace := "default", Name := "demo", ResourceVersion := 7,
    Spec := { Message := "hello" }, Status := st }

/-- A status with the given phase and job name and nothing else set. -/
def sampleStatus (phase : EchoPhase) (jobName : String) : EchoStatus :=
  { Phase := phase, JobName := jobName, Message := "", Conditions := [], LastExecutionTime := none }

/-- A cluster holding one Echo, `demo`, with the given status, and an unrelated one. -/
def sampleCluster (st : EchoStatus) : Cluster :=
  { objects := [ { Namespace := "other", Name := "demo", ResourceVersion := 1,
                   Spec := { Message := "bye" }, Status := sampleStatus "Running" "echo-job-demo" },
                 sampleEcho st ],
    statusUpdates := [] }

/-- The request for `default/demo`. -/
def sampleReq : Request := { NamespacedName := { Namespace := "default", Name := "demo" } }

/-- An environment in which every store call succeeds. -/
def envOk (job : JobState) : Env := { getErr := none, updateErr := none, job := job }

/-- An environment whose store is unavailable for reads. -/
def envGetDown : Env :=
  { getErr := some { Reason := StatusReason.ServiceUnavailable, Code := 503, Message := "etcd unavailable" },
    updateErr := none, job := JobState.Running }

/-- The error with which the store rejects a write fenced by a stale version token. -/
def conflictErr : APIError :=
  { Reason := StatusReason.Conflict, Code := 409,
    Message := "Operation cannot be fulfilled on echoes \"demo\": the object has been modified" }

/-- An environment whose store rejects the status update with a version conflict. -/
def envConflict : Env := { getErr := none, updateErr := some conflictErr, job := JobState.Running }

/-! ## The status each handler computes and the state a write leaves -/

/-- The status `handleNewEcho` computes. -/
def newStatus (echo : Echo) : EchoStatus :=
  { echo.Status with Phase := EchoPhasePending,
                     Message := "Echo resource created, preparing to execute" }

/-- The status `handlePendingEcho` computes. -/
def pendingStatus (echo : Echo) : EchoStatus :=
  { echo.Status with
    Phase := EchoPhaseRunning,
    JobName := "echo-job-" ++ echo.Name,
    Message := "Job " ++ ("echo-job-" ++ echo.Name) ++ " created for message: " ++ echo.Spec.Message }

/-- The status `handleRunningEcho` computes. -/
def runningStatus (echo : Echo) : EchoStatus :=
  { echo.Status with
    Phase := EchoPhaseCompleted,
    Message := "Job " ++ echo.Status.JobName ++ " completed successfully. Message \x27" ++
      echo.Spec.Message ++ "\x27 was echoed." }

/-- The cluster after the status `st` was committed for `echo`. -/
def committed (c : Cluster) (echo : Echo) (st : EchoStatus) : Cluster :=
  { objects := c.objects.map (writeStatus { echo with Status := st }),
    statusUpdates := { echo with Status := st } :: c.statusUpdates }

/-- The cluster after the write of status `st` for `echo` was rejected. -/
def rejected (c : Cluster) (echo : Echo) (st : EchoStatus) : Cluster :=
  { objects := c.objects, statusUpdates := { echo with Status := st } :: c.statusUpdates }

/-- A cluster holding two Echo objects of the same name, `demo`, in the
namespaces `default` and `other`, both in phase Pending. -/
def twoNamespaces : Cluster :=
  { objects := [ { Namespace := "other", Name := "demo", ResourceVersion := 1,
                   Spec := { Message := "bye" }, Status := sampleStatus "Pending" "" },
                 sampleEcho (sampleStatus "Pending" "") ],
    statusUpdates := [] }

/-- The request for `other/demo`. -/
def otherReq : Request := { NamespacedName := { Namespace := "other", Name := "demo" } }

/-- A cluster holding `default/demo` and `default/second`, both in phase Pending. -/
def twoNames : Cluster :=
  { objects := [ { Namespace := "default", Name := "second", ResourceVersion := 1,
                   Spec := { Message := "bye" }, Status := sampleStatus "Pending" "" },
                 sampleEcho (sampleStatus "Pending" "") ],
    statusUpdates := [] }

/-- The request for `default/second`. -/
def secondReq : Request := { NamespacedName := { Namespace := "default", Name := "second" } }

/-- A status with the given phase, job name and status message. -/
def sampleStatusMsg (phase : EchoPhase) (jobName msg : String) : EchoStatus :=
  { Phase := phase, JobName := jobName, Message := msg, Conditions := [], LastExecutionTime := none }

/-- An environment whose store is unavailable for status updates. -/
def envUpdateDown : Env :=
  { getErr := none,
    updateErr := some { Reason := StatusReason.ServiceUnavailable, Code := 503, Message := "etcd unavailable" },
    job := JobState.Running }

/-! ## The step of one pass on the stored object, and sequences of passes -/

/-- Whether a phase is one of the two on which `Reconcile` returns without
calling a handler. -/
def isTerminal (p : EchoPhase) : Bool :=
  decide (p = EchoPhaseCompleted) || decide (p = EchoPhaseFailed)

/-- The status the handler selected by the `switch` of `Reconcile` computes for
a fetched object; on the two terminal phases no handler runs and the status is
the stored one. -/
def nextStatus (echo : Echo) : EchoStatus :=
  if echo.Status.Phase = "" then newStatus echo
  else if echo.Status.Phase = EchoPhasePending then pendingStatus echo
  else if echo.Status.Phase = EchoPhaseRunning then runningStatus echo
  else if echo.Status.Phase = EchoPhaseCompleted then echo.Status
  else if echo.Status.Phase = EchoPhaseFailed then echo.Status
  else newStatus echo

/-- The result the selected handler returns when its status update succeeds. -/
def nextResult (echo : Echo) : Result :=
  if echo.Status.Phase = "" then Result.requeue
  else if echo.Status.Phase = EchoPhasePending then Result.requeue
  else if echo.Status.Phase = EchoPhaseRunning then Result.empty
  else if echo.Status.Phase = EchoPhaseCompleted then Result.empty
  else if echo.Status.Phase = EchoPhaseFailed then Result.empty
  else Result.requeue

/-- The stored object after a pass whose fetch and status update succeed. -/
def advance (echo : Echo) : Echo :=
  if isTerminal echo.Status.Phase then echo
  else { echo with Status := nextStatus echo, ResourceVersion := echo.ResourceVersion + 1 }

/-- The cluster after the first `k` passes for `req`, pass `i + 1` running in
the environment `envs i`. -/
def clusterAfter (envs : Nat → Env) (c : Cluster) (req : Request) : Nat → Cluster
  | 0 => c
  | k + 1 => (Reconcile (envs k) (clusterAfter envs c req k) req).cluster

/-- The outcome of pass `k + 1` for `req`. -/
def passOutcome (envs : Nat → Env) (c : Cluster) (req : Request) (k : Nat) : Outcome :=
  Reconcile (envs k) (clusterAfter envs c req k) req

/-- The zero value of `EchoStatus`: the status of a freshly created Echo. -/
def freshStatus : EchoStatus :=
  { Phase := "", JobName := "", Message := "", Conditions := [], LastExecutionTime := none }

/-- Whether a phase string is none of the five the `switch` of `Reconcile` names. -/
def isUnknown (p : EchoPhase) : Bool :=
  !(decide (p = "") || decide (p = EchoPhasePending) || decide (p = EchoPhaseRunning)
    || decide (p = EchoPhaseCompleted) || decide (p = EchoPhaseFailed))

/-- The transitions of the table of the specification, section 4.1, with the
rows that leave the phase as it is: unset to unset or Pending, Pending to
Pending or Running, Running to Running, Completed or Failed, Completed to
Completed, Failed to Failed, unknown to itself or Pending. -/
def tableTransition (p q : EchoPhase) : Bool :=
  (decide (p = "") && (decide (q = "") || decide (q = EchoPhasePending)))
  || (decide (p = EchoPhasePending) && (decide (q = EchoPhasePending) || decide (q = EchoPhaseRunning)))
  || (decide (p = EchoPhaseRunning) &&
        (decide (q = EchoPhaseRunning) || decide (q = EchoPhaseCompleted) || decide (q = EchoPhaseFailed)))
  || (decide (p = EchoPhaseCompleted) && decide (q = EchoPhaseCompleted))
  || (decide (p = EchoPhaseFailed) && decide (q = EchoPhaseFailed))
  || (isUnknown p && (decide (q = p) || decide (q = EchoPhasePending)))

/-- The position of a phase in the order unset, Pending, Running, terminal; an
unknown phase has no position. -/
def phaseRank (p : EchoPhase) : Option Nat :=
  if p = "" then some 0
  else if p = EchoPhasePending then some 1
  else if p = EchoPhaseRunning then some 2
  else if p = EchoPhaseCompleted then some 3
  else if p = EchoPhaseFailed then some 3
  else none

/-- The number of committed passes that separate a phase from a terminal one:
the length of the path the `switch` of `Reconcile` follows from it. -/
def passesLeft (p : EchoPhase) : Nat :=
  if p = "" then 3
  else if p = EchoPhasePending then 2
  else if p = EchoPhaseRunning then 1
  else if p = EchoPhaseCompleted then 0
  else if p = EchoPhaseFailed then 0
  else 3

/-! ## The store client: basic facts -/

theorem lookup_key {c : Cluster} {key : NamespacedName} {o : Echo}
    (h : c.lookup key = some o) : o.key = key := by
  unfold Cluster.lookup at h
  have := List.find?_some h
  simpa using this

theorem writeStatus_key (echo o : Echo) : (writeStatus echo o).key = o.key := by
  unfold writeStatus
  split <;> rfl

theorem find_map_writeStatus (echo : Echo) (key : NamespacedName) (l : List Echo) :
    (l.map (writeStatus echo)).find? (fun o => decide (o.key = key))
      = (l.find? (fun o => decide (o.key = key))).map (writeStatus echo) := by
  induction l with
  | nil => rfl
  | cons a t ih =>
    simp only [List.map_cons, List.find?_cons, writeStatus_key]
    by_cases h : a.key = key
    · simp [h]
    · simp [h, ih]

/-- A successful `Get` returns the stored object of the requested identity. -/
theorem Get_ok {fault : Option APIError} {c : Cluster} {key : NamespacedName} {echo : Echo}
    (h : Get fault c key = Except.ok echo) :
    fault = none ∧ c.lookup key = some echo ∧ echo.key = key := by
  unfold Get at h
  cases fault with
  | some e => simp at h
  | none =>
    cases hl : c.lookup key with
    | none => simp [hl] at h
    | some o =>
      simp [hl] at h
      subst h
      exact ⟨rfl, rfl, lookup_key hl⟩

/-- A failed `Status().Update` logs the request and leaves the objects alone. -/
theorem StatusUpdate_fault (e : APIError) (c : Cluster) (echo : Echo) :
    StatusUpdate (some e) c echo
      = (some e, { objects := c.objects, statusUpdates := echo :: c.statusUpdates }) := rfl

/-- A `Status().Update` of an object that was read from the store in the same
pass, with only its status changed, is committed when the store does not
reject it. -/
theorem StatusUpdate_ok (c : Cluster) (stored echo : Echo)
    (hl : c.lookup echo.key = some stored) (hv : stored.ResourceVersion = echo.ResourceVersion) :
    StatusUpdate none c echo
      = (none, { objects := c.objects.map (writeStatus echo),
                 statusUpdates := echo :: c.statusUpdates }) := by
  simp [StatusUpdate, hl, hv]

/-- The stored object after a committed status write. -/
theorem lookup_after_write (c : Cluster) (stored echo : Echo) (log : List Echo)
    (hl : c.lookup echo.key = some stored) :
    Cluster.lookup { objects := c.objects.map (writeStatus echo), statusUpdates := log } echo.key
      = some { stored with Status := echo.Status, ResourceVersion := stored.ResourceVersion + 1 } := by
  unfold Cluster.lookup at hl ⊢
  simp only [find_map_writeStatus, hl, Option.map_some']
  have hk : stored.key = echo.key := by simpa using List.find?_some hl
  simp [writeStatus, hk]

/-! ## The handlers -/

theorem handleNewEcho_ok {env : Env} {c : Cluster} {echo : Echo}
    (hl : c.lookup echo.key = some echo) (hu : env.updateErr = none) :
    handleNewEcho env c echo
      = { result := Result.requeue, err := none, cluster := committed c echo (newStatus echo) } := by
  have h := StatusUpdate_ok c echo { echo with Status := newStatus echo } hl rfl
  simp only [newStatus] at h
  simp only [handleNewEcho, hu, h, committed, newStatus]

theorem handleNewEcho_err {env : Env} {c : Cluster} {echo : Echo} {e : APIError}
    (hu : env.updateErr = some e) :
    handleNewEcho env c echo
      = { result := Result.empty, err := some e, cluster := rejected c echo (newStatus echo) } := by
  simp only [handleNewEcho, hu, StatusUpdate_fault]
  rfl

theorem handlePendingEcho_ok {env : Env} {c : Cluster} {echo : Echo}
    (hl : c.lookup echo.key = some echo) (hu : env.updateErr = none) :
    handlePendingEcho env c echo
      = { result := Result.requeue, err := none, cluster := committed c echo (pendingStatus echo) } := by
  have h := StatusUpdate_ok c echo { echo with Status := pendingStatus echo } hl rfl
  simp only [pendingStatus] at h
  simp only [handlePendingEcho, hu, h, committed, pendingStatus]

theorem handlePendingEcho_err {env : Env} {c : Cluster} {echo : Echo} {e : APIError}
    (hu : env.updateErr = some e) :
    handlePendingEcho env c echo
      = { result := Result.empty, err := some e, cluster := rejected c echo (pendingStatus echo) } := by
  simp only [handlePendingEcho, hu, StatusUpdate_fault]
  rfl

theorem handleRunningEcho_ok {env : Env} {c : Cluster} {echo : Echo}
    (hl : c.lookup echo.key = some echo) (hu : env.updateErr = none) :
    handleRunningEcho env c echo
      = { result := Result.empty, err := none, cluster := committed c echo (runningStatus echo) } := by
  have h := StatusUpdate_ok c echo { echo with Status := runningStatus echo } hl rfl
  simp only [runningStatus] at h
  simp only [handleRunningEcho, hu, h, committed, runningStatus]

theorem handleRunningEcho_err {env : Env} {c : Cluster} {echo : Echo} {e : APIError}
    (hu : env.updateErr = some e) :
    handleRunningEcho env c echo
      = { result := Result.empty, err := some e, cluster := rejected c echo (runningStatus echo) } := by
  simp only [handleRunningEcho, hu, StatusUpdate_fault]
  rfl

/-- The stored object after a committed write of `st` for the object `echo`
that is stored under `key`. -/
theorem lookup_committed {c : Cluster} {key : NamespacedName} {echo : Echo} (st : EchoStatus)
    (hl : c.lookup key = some echo) :
    (committed c echo st).lookup key
      = some { echo with Status := st, ResourceVersion := echo.ResourceVersion + 1 } := by
  have hk : echo.key = key := lookup_key hl
  subst hk
  exact lookup_after_write c echo { echo with Status := st } _ hl

/-! ## The dispatch of `Reconcile` -/

theorem Get_stored {env : Env} {c : Cluster} {key : NamespacedName} {echo : Echo}
    (hl : c.lookup key = some echo) (hg : env.getErr = none) :
    Get env.getErr c key = Except.ok echo := by
  simp [Get, hg, hl]

theorem Reconcile_getErr {env : Env} {c : Cluster} {req : Request} {e : APIError}
    (h : Get env.getErr c req.NamespacedName = Except.error e) :
    Reconcile env c req
      = if IsNotFound e then { result := Result.empty, err := none, cluster := c }
        else { result := Result.empty, err := some e, cluster := c } := by
  simp only [Reconcile, h]

theorem Reconcile_new {env : Env} {c : Cluster} {req : Request} {echo : Echo}
    (h : Get env.getErr c req.NamespacedName = Except.ok echo)
    (hp : echo.Status.Phase = "") :
    Reconcile env c req = handleNewEcho env c echo := by
  simp only [Reconcile, h, hp, if_true]

theorem Reconcile_pending {env : Env} {c : Cluster} {req : Request} {echo : Echo}
    (h : Get env.getErr c req.NamespacedName = Except.ok echo)
    (hp : echo.Status.Phase = EchoPhasePending) :
    Reconcile env c req = handlePendingEcho env c echo := by
  simp only [Reconcile, h, hp]
  rfl

theorem Reconcile_running {env : Env} {c : Cluster} {req : Request} {echo : Echo}
    (h : Get env.getErr c req.NamespacedName = Except.ok echo)
    (hp : echo.Status.Phase = EchoPhaseRunning) :
    Reconcile env c req = handleRunningEcho env c echo := by
  simp only [Reconcile, h, hp]
  rfl

theorem Reconcile_terminal {env : Env} {c : Cluster} {req : Request} {echo : Echo}
    (h : Get env.getErr c req.NamespacedName = Except.ok echo)
    (hp : echo.Status.Phase = EchoPhaseCompleted ∨ echo.Status.Phase = EchoPhaseFailed) :
    Reconcile env c req = { result := Result.empty, err := none, cluster := c } := by
  rcases hp with hp | hp <;> simp only [Reconcile, h, hp] <;> rfl

theorem Reconcile_unknown {env : Env} {c : Cluster} {req : Request} {echo : Echo}
    (h : Get env.getErr c req.NamespacedName = Except.ok echo)
    (h0 : echo.Status.Phase ≠ "") (h1 : echo.Status.Phase ≠ EchoPhasePending)
    (h2 : echo.Status.Phase ≠ EchoPhaseRunning) (h3 : echo.Status.Phase ≠ EchoPhaseCompleted)
    (h4 : echo.Status.Phase ≠ EchoPhaseFailed) :
    Reconcile env c req = handleNewEcho env c echo := by
  simp only [Reconcile, h, h0, h1, h2, h3, h4, if_false]

/-! ## The transitions of one pass -/

/-- C1: for a stored Echo in phase Pending, whatever its name and spec message,
a pass whose fetch and status update succeed stores phase Running and the job
name `"echo-job-" ++ name`, which depends on the resource name only, and
returns `Result{Requeue: true}` with no error. -/
theorem reconcile_pending_records_job (env : Env) (c : Cluster) (req : Request) (echo : Echo)
    (hstored : c.lookup req.NamespacedName = some echo)
    (hphase : echo.Status.Phase = EchoPhasePending)
    (hget : env.getErr = none) (hupd : env.updateErr = none) :
    (Reconcile env c req).result = Result.requeue ∧
    (Reconcile env c req).err = none ∧
    echo.Name = req.NamespacedName.Name ∧
    ∃ stored, (Reconcile env c req).cluster.lookup req.NamespacedName = some stored ∧
      stored.Status.Phase = EchoPhaseRunning ∧
      stored.Status.JobName = "echo-job-" ++ req.NamespacedName.Name := by
  have hname : echo.Name = req.NamespacedName.Name := congrArg NamespacedName.Name (lookup_key hstored)
  have hk : c.lookup echo.key = some echo := by rw [lookup_key hstored]; exact hstored
  rw [Reconcile_pending (Get_stored hstored hget) hphase, handlePendingEcho_ok hk hupd]
  refine ⟨rfl, rfl, hname, _, lookup_committed _ hstored, rfl, ?_⟩
  simp [pendingStatus, hname]

/-- C1, at the stored Echo `default/demo` in phase Pending. -/
theorem reconcile_pending_records_job_witness :
    (sampleCluster (sampleStatus "Pending" "")).lookup sampleReq.NamespacedName
        = some (sampleEcho (sampleStatus "Pending" "")) ∧
    (Reconcile (envOk JobState.Running) (sampleCluster (sampleStatus "Pending" "")) sampleReq).result
        = Result.requeue ∧
    ∃ stored, (Reconcile (envOk JobState.Running) (sampleCluster (sampleStatus "Pending" ""))
        sampleReq).cluster.lookup sampleReq.NamespacedName = some stored ∧
      stored.Status.Phase = "Running" ∧ stored.Status.JobName = "echo-job-demo" :=
  ⟨by decide,
   (reconcile_pending_records_job (envOk JobState.Running) (sampleCluster (sampleStatus "Pending" ""))
      sampleReq (sampleEcho (sampleStatus "Pending" "")) (by decide) (by decide) rfl rfl).1,
   (reconcile_pending_records_job (envOk JobState.Running) (sampleCluster (sampleStatus "Pending" ""))
      sampleReq (sampleEcho (sampleStatus "Pending" "")) (by decide) (by decide) rfl rfl).2.2.2⟩

/-- C2: for a stored Echo whose phase is empty, a pass whose fetch and status
update succeed stores phase Pending, leaves `status.jobName` as it was, and
returns `Result{Requeue: true}` with no error. -/
theorem reconcile_unset_to_pending (env : Env) (c : Cluster) (req : Request) (echo : Echo)
    (hstored : c.lookup req.NamespacedName = some echo)
    (hphase : echo.Status.Phase = "")
    (hget : env.getErr = none) (hupd : env.updateErr = none) :
    (Reconcile env c req).result = Result.requeue ∧
    (Reconcile env c req).err = none ∧
    ∃ stored, (Reconcile env c req).cluster.lookup req.NamespacedName = some stored ∧
      stored.Status.Phase = EchoPhasePending ∧
      stored.Status.JobName = echo.Status.JobName := by
  have hk : c.lookup echo.key = some echo := by rw [lookup_key hstored]; exact hstored
  rw [Reconcile_new (Get_stored hstored hget) hphase, handleNewEcho_ok hk hupd]
  exact ⟨rfl, rfl, _, lookup_committed _ hstored, rfl, rfl⟩

/-- C2, at the stored Echo `default/demo` with an empty status. -/
theorem reconcile_unset_to_pending_witness :
    (sampleCluster (sampleStatus "" "")).lookup sampleReq.NamespacedName
        = some (sampleEcho (sampleStatus "" "")) ∧
    (Reconcile (envOk JobState.Absent) (sampleCluster (sampleStatus "" "")) sampleReq).result
        = Result.requeue ∧
    ∃ stored, (Reconcile (envOk JobState.Absent) (sampleCluster (sampleStatus "" ""))
        sampleReq).cluster.lookup sampleReq.NamespacedName = some stored ∧
      stored.Status.Phase = "Pending" ∧ stored.Status.JobName = "" :=
  ⟨by decide,
   (reconcile_unset_to_pending (envOk JobState.Absent) (sampleCluster (sampleStatus "" ""))
      sampleReq (sampleEcho (sampleStatus "" "")) (by decide) (by decide) rfl rfl).1,
   (reconcile_unset_to_pending (envOk JobState.Absent) (sampleCluster (sampleStatus "" ""))
      sampleReq (sampleEcho (sampleStatus "" "")) (by decide) (by decide) rfl rfl).2.2⟩

/-- C3: for a stored Echo in phase Running whose job is reported as succeeded,
a pass whose fetch and status update succeed stores phase Completed, leaves
`status.jobName` unchanged, and returns the empty result (no requeue) with no
error. -/
theorem reconcile_running_succeeded (env : Env) (c : Cluster) (req : Request) (echo : Echo)
    (hstored : c.lookup req.NamespacedName = some echo)
    (hphase : echo.Status.Phase = EchoPhaseRunning)
    (_hjob : env.job = JobState.Succeeded)
    (hget : env.getErr = none) (hupd : env.updateErr = none) :
    (Reconcile env c req).result = Result.empty ∧
    (Reconcile env c req).result.Requeue = false ∧
    (Reconcile env c req).result.RequeueAfter = 0 ∧
    (Reconcile env c req).err = none ∧
    ∃ stored, (Reconcile env c req).cluster.lookup req.NamespacedName = some stored ∧
      stored.Status.Phase = EchoPhaseCompleted ∧
      stored.Status.JobName = echo.Status.JobName := by
  have hk : c.lookup echo.key = some echo := by rw [lookup_key hstored]; exact hstored
  rw [Reconcile_running (Get_stored hstored hget) hphase, handleRunningEcho_ok hk hupd]
  exact ⟨rfl, rfl, rfl, rfl, _, lookup_committed _ hstored, rfl, rfl⟩

/-- C3, at the stored Echo `default/demo` in phase Running with its job succeeded. -/
theorem reconcile_running_succeeded_witness :
    (sampleCluster (sampleStatus "Running" "echo-job-demo")).lookup sampleReq.NamespacedName
        = some (sampleEcho (sampleStatus "Running" "echo-job-demo")) ∧
    (envOk JobState.Succeeded).job = JobState.Succeeded ∧
    (Reconcile (envOk JobState.Succeeded) (sampleCluster (sampleStatus "Running" "echo-job-demo"))
        sampleReq).result = Result.empty ∧
    ∃ stored, (Reconcile (envOk JobState.Succeeded)
        (sampleCluster (sampleStatus "Running" "echo-job-demo")) sampleReq).cluster.lookup
          sampleReq.NamespacedName = some stored ∧
      stored.Status.Phase = "Completed" ∧ stored.Status.JobName = "echo-job-demo" :=
  ⟨by decide, rfl,
   (reconcile_running_succeeded (envOk JobState.Succeeded)
      (sampleCluster (sampleStatus "Running" "echo-job-demo")) sampleReq
      (sampleEcho (sampleStatus "Running" "echo-job-demo")) (by decide) (by decide) rfl rfl rfl).1,
   (reconcile_running_succeeded (envOk JobState.Succeeded)
      (sampleCluster (sampleStatus "Running" "echo-job-demo")) sampleReq
      (sampleEcho (sampleStatus "Running" "echo-job-demo")) (by decide) (by decide) rfl rfl rfl).2.2.2.2⟩

/-- The pass on a stored Echo in phase Running, whatever the store answers to
the status update: the error returned is that of the update, the result is
empty, and the job name is kept; the phase becomes Completed when the update is
committed and stays Running when it is rejected. -/
theorem Reconcile_running_any {env : Env} {c : Cluster} {req : Request} {echo : Echo}
    (hstored : c.lookup req.NamespacedName = some echo)
    (hphase : echo.Status.Phase = EchoPhaseRunning)
    (hget : env.getErr = none) :
    (Reconcile env c req).result = Result.empty ∧
    (Reconcile env c req).err = env.updateErr ∧
    ∃ stored, (Reconcile env c req).cluster.lookup req.NamespacedName = some stored ∧
      stored.Status.JobName = echo.Status.JobName ∧
      stored.Status.Phase
        = if env.updateErr = none then EchoPhaseCompleted else EchoPhaseRunning := by
  have hk : c.lookup echo.key = some echo := by rw [lookup_key hstored]; exact hstored
  rw [Reconcile_running (Get_stored hstored hget) hphase]
  cases hu : env.updateErr with
  | none =>
    rw [handleRunningEcho_ok hk hu]
    exact ⟨rfl, rfl, _, lookup_committed _ hstored, rfl, rfl⟩
  | some e =>
    rw [handleRunningEcho_err hu]
    exact ⟨rfl, rfl, echo, hstored, rfl, by simpa using hphase⟩

/-- C4, as the code has it: for a stored Echo in phase Running whose job is
reported as failed, a pass whose fetch and status update succeed stores phase
Completed, not Failed, and returns the empty result (no requeue) with no
error; the job state is not inspected. -/
theorem reconcile_running_failed_job (env : Env) (c : Cluster) (req : Request) (echo : Echo)
    (hstored : c.lookup req.NamespacedName = some echo)
    (hphase : echo.Status.Phase = EchoPhaseRunning)
    (_hjob : env.job = JobState.Failed)
    (hget : env.getErr = none) (hupd : env.updateErr = none) :
    (Reconcile env c req).result = Result.empty ∧
    (Reconcile env c req).err = none ∧
    ∃ stored, (Reconcile env c req).cluster.lookup req.NamespacedName = some stored ∧
      stored.Status.Phase = EchoPhaseCompleted ∧
      stored.Status.Phase ≠ EchoPhaseFailed := by
  obtain ⟨hr, he, stored, hl, _, hp⟩ := Reconcile_running_any hstored hphase hget
  rw [hupd] at he hp
  refine ⟨hr, he, stored, hl, by simpa using hp, ?_⟩
  rw [hp]
  decide

/-- C4 as amended, at the stored Echo `default/demo` in phase Running with its
job failed. -/
theorem reconcile_running_failed_job_witness :
    (sampleCluster (sampleStatus "Running" "echo-job-demo")).lookup sampleReq.NamespacedName
        = some (sampleEcho (sampleStatus "Running" "echo-job-demo")) ∧
    (envOk JobState.Failed).job = JobState.Failed ∧
    (Reconcile (envOk JobState.Failed) (sampleCluster (sampleStatus "Running" "echo-job-demo"))
        sampleReq).result = Result.empty ∧
    (Reconcile (envOk JobState.Failed) (sampleCluster (sampleStatus "Running" "echo-job-demo"))
        sampleReq).err = none ∧
    ∃ stored, (Reconcile (envOk JobState.Failed)
        (sampleCluster (sampleStatus "Running" "echo-job-demo")) sampleReq).cluster.lookup
          sampleReq.NamespacedName = some stored ∧
      stored.Status.Phase = "Completed" ∧ stored.Status.Phase ≠ "Failed" :=
  ⟨by decide, rfl,
   reconcile_running_failed_job (envOk JobState.Failed)
      (sampleCluster (sampleStatus "Running" "echo-job-demo")) sampleReq
      (sampleEcho (sampleStatus "Running" "echo-job-demo")) (by decide) (by decide) rfl rfl rfl⟩

/-- C4 as stated fails: the stored Echo `default/demo` is in phase Running, its
job is reported as failed, every store call succeeds, and the phase stored by
the pass is Completed, so no stored object of that identity has phase Failed. -/
theorem reconcile_running_failed_job_counterexample :
    (sampleCluster (sampleStatus "Running" "echo-job-demo")).lookup sampleReq.NamespacedName
        = some (sampleEcho (sampleStatus "Running" "echo-job-demo")) ∧
    (sampleEcho (sampleStatus "Running" "echo-job-demo")).Status.Phase = EchoPhaseRunning ∧
    (envOk JobState.Failed).job = JobState.Failed ∧
    ((Reconcile (envOk JobState.Failed) (sampleCluster (sampleStatus "Running" "echo-job-demo"))
        sampleReq).cluster.lookup sampleReq.NamespacedName).map (fun e => e.Status.Phase)
      = some "Completed" ∧
    ¬ ∃ stored, (Reconcile (envOk JobState.Failed)
        (sampleCluster (sampleStatus "Running" "echo-job-demo")) sampleReq).cluster.lookup
          sampleReq.NamespacedName = some stored ∧
      stored.Status.Phase = EchoPhaseFailed := by
  refine ⟨by decide, by decide, rfl, by decide, ?_⟩
  rintro ⟨stored, hl, hp⟩
  have h : ((Reconcile (envOk JobState.Failed)
      (sampleCluster (sampleStatus "Running" "echo-job-demo")) sampleReq).cluster.lookup
        sampleReq.NamespacedName).map (fun e => e.Status.Phase) = some "Completed" := by decide
  rw [hl] at h
  simp only [Option.map_some', hp, Option.some.injEq] at h
  exact absurd h (by decide)

/-- C5, as the code has it: for a stored Echo in phase Running whose job is
reported as absent, a fetched pass returns the error of its status update and
nothing else: when the update is committed it returns no error and the stored
phase becomes Completed; when the update is rejected the phase remains Running.
In both cases `status.jobName` is unchanged. -/
theorem reconcile_running_absent_job (env : Env) (c : Cluster) (req : Request) (echo : Echo)
    (hstored : c.lookup req.NamespacedName = some echo)
    (hphase : echo.Status.Phase = EchoPhaseRunning)
    (_hjob : env.job = JobState.Absent)
    (hget : env.getErr = none) :
    (Reconcile env c req).err = env.updateErr ∧
    ∃ stored, (Reconcile env c req).cluster.lookup req.NamespacedName = some stored ∧
      stored.Status.JobName = echo.Status.JobName ∧
      stored.Status.Phase
        = if env.updateErr = none then EchoPhaseCompleted else EchoPhaseRunning :=
  (Reconcile_running_any hstored hphase hget).2

/-- C5 as amended, at the stored Echo `default/demo` in phase Running with its
job absent and every store call succeeding. -/
theorem reconcile_running_absent_job_witness :
    (sampleCluster (sampleStatus "Running" "echo-job-demo")).lookup sampleReq.NamespacedName
        = some (sampleEcho (sampleStatus "Running" "echo-job-demo")) ∧
    (envOk JobState.Absent).job = JobState.Absent ∧
    (Reconcile (envOk JobState.Absent) (sampleCluster (sampleStatus "Running" "echo-job-demo"))
        sampleReq).err = none ∧
    ∃ stored, (Reconcile (envOk JobState.Absent)
        (sampleCluster (sampleStatus "Running" "echo-job-demo")) sampleReq).cluster.lookup
          sampleReq.NamespacedName = some stored ∧
      stored.Status.JobName = "echo-job-demo" ∧ stored.Status.Phase = "Completed" :=
  ⟨by decide, rfl,
   reconcile_running_absent_job (envOk JobState.Absent)
      (sampleCluster (sampleStatus "Running" "echo-job-demo")) sampleReq
      (sampleEcho (sampleStatus "Running" "echo-job-demo")) (by decide) (by decide) rfl rfl⟩

/-- C5 as stated fails: the stored Echo `default/demo` is in phase Running, its
job is reported as absent, every store call succeeds, and the pass returns no
error and stores phase Completed instead of leaving Running. -/
theorem reconcile_running_absent_job_counterexample :
    (sampleCluster (sampleStatus "Running" "echo-job-demo")).lookup sampleReq.NamespacedName
        = some (sampleEcho (sampleStatus "Running" "echo-job-demo")) ∧
    (sampleEcho (sampleStatus "Running" "echo-job-demo")).Status.Phase = EchoPhaseRunning ∧
    (envOk JobState.Absent).job = JobState.Absent ∧
    (Reconcile (envOk JobState.Absent) (sampleCluster (sampleStatus "Running" "echo-job-demo"))
        sampleReq).err = none ∧
    ((Reconcile (envOk JobState.Absent) (sampleCluster (sampleStatus "Running" "echo-job-demo"))
        sampleReq).cluster.lookup sampleReq.NamespacedName).map (fun e => e.Status.Phase)
      = some "Completed" ∧
    ((Reconcile (envOk JobState.Absent) (sampleCluster (sampleStatus "Running" "echo-job-demo"))
        sampleReq).cluster.lookup sampleReq.NamespacedName).map (fun e => e.Status.Phase)
      ≠ some EchoPhaseRunning := by
  refine ⟨by decide, by decide, rfl, by decide, by decide, by decide⟩

/-- C6: for a stored Echo in phase Completed or Failed, a fetched pass issues
no status update, leaves the cluster (so the whole stored resource) as it was,
and returns the empty result with no error; a second pass on the state the
first one left, whatever the store would answer to an update, returns and
leaves the same as the first. -/
theorem reconcile_terminal_noop (env : Env) (c : Cluster) (req : Request) (echo : Echo)
    (hstored : c.lookup req.NamespacedName = some echo)
    (hphase : echo.Status.Phase = EchoPhaseCompleted ∨ echo.Status.Phase = EchoPhaseFailed)
    (hget : env.getErr = none) :
    (Reconcile env c req).result = Result.empty ∧
    (Reconcile env c req).err = none ∧
    (Reconcile env c req).cluster.statusUpdates = c.statusUpdates ∧
    (Reconcile env c req).cluster.objects = c.objects ∧
    (Reconcile env c req).cluster.lookup req.NamespacedName = some echo ∧
    ∀ env2 : Env, env2.getErr = none →
      Reconcile env2 (Reconcile env c req).cluster req = Reconcile env c req := by
  have h1 := Reconcile_terminal (Get_stored hstored hget) hphase
  rw [h1]
  refine ⟨rfl, rfl, rfl, rfl, hstored, ?_⟩
  intro env2 hget2
  exact Reconcile_terminal (Get_stored hstored hget2) hphase

/-- C6, at the stored Echo `default/demo` in phase Failed, with a store that
would reject any status update. -/
theorem reconcile_terminal_noop_witness :
    (sampleCluster (sampleStatus "Failed" "echo-job-demo")).lookup sampleReq.NamespacedName
        = some (sampleEcho (sampleStatus "Failed" "echo-job-demo")) ∧
    (Reconcile { getErr := none, updateErr := some { Reason := StatusReason.Conflict, Code := 409, Message := "" },
                 job := JobState.Failed }
        (sampleCluster (sampleStatus "Failed" "echo-job-demo")) sampleReq).cluster
      = sampleCluster (sampleStatus "Failed" "echo-job-demo") ∧
    (Reconcile { getErr := none, updateErr := some { Reason := StatusReason.Conflict, Code := 409, Message := "" },
                 job := JobState.Failed }
        (sampleCluster (sampleStatus "Failed" "echo-job-demo")) sampleReq).result = Result.empty :=
  ⟨by decide, by decide,
   (reconcile_terminal_noop
      { getErr := none, updateErr := some { Reason := StatusReason.Conflict, Code := 409, Message := "" },
        job := JobState.Failed }
      (sampleCluster (sampleStatus "Failed" "echo-job-demo")) sampleReq
      (sampleEcho (sampleStatus "Failed" "echo-job-demo")) (by decide)
      (Or.inr (by decide)) rfl).1⟩

/-- C7: for a stored Echo whose phase is none of `""`, Pending, Running,
Completed and Failed, a pass whose fetch and status update succeed stores phase
Pending and returns `Result{Requeue: true}` with no error. -/
theorem reconcile_unknown_resets (env : Env) (c : Cluster) (req : Request) (echo : Echo)
    (hstored : c.lookup req.NamespacedName = some echo)
    (h0 : echo.Status.Phase ≠ "") (h1 : echo.Status.Phase ≠ "Pending")
    (h2 : echo.Status.Phase ≠ "Running") (h3 : echo.Status.Phase ≠ "Completed")
    (h4 : echo.Status.Phase ≠ "Failed")
    (hget : env.getErr = none) (hupd : env.updateErr = none) :
    (Reconcile env c req).result = Result.requeue ∧
    (Reconcile env c req).err = none ∧
    ∃ stored, (Reconcile env c req).cluster.lookup req.NamespacedName = some stored ∧
      stored.Status.Phase = EchoPhasePending := by
  have hk : c.lookup echo.key = some echo := by rw [lookup_key hstored]; exact hstored
  rw [Reconcile_unknown (Get_stored hstored hget) h0 h1 h2 h3 h4, handleNewEcho_ok hk hupd]
  exact ⟨rfl, rfl, _, lookup_committed _ hstored, rfl⟩

/-- C7, at the stored Echo `default/demo` with phase `"Bogus"`. -/
theorem reconcile_unknown_resets_witness :
    (sampleCluster (sampleStatus "Bogus" "")).lookup sampleReq.NamespacedName
        = some (sampleEcho (sampleStatus "Bogus" "")) ∧
    (Reconcile (envOk JobState.Absent) (sampleCluster (sampleStatus "Bogus" "")) sampleReq).result
        = Result.requeue ∧
    (Reconcile (envOk JobState.Absent) (sampleCluster (sampleStatus "Bogus" "")) sampleReq).err
        = none ∧
    ∃ stored, (Reconcile (envOk JobState.Absent) (sampleCluster (sampleStatus "Bogus" ""))
        sampleReq).cluster.lookup sampleReq.NamespacedName = some stored ∧
      stored.Status.Phase = "Pending" :=
  ⟨by decide,
   reconcile_unknown_resets (envOk JobState.Absent) (sampleCluster (sampleStatus "Bogus" ""))
      sampleReq (sampleEcho (sampleStatus "Bogus" "")) (by decide) (by decide) (by decide)
      (by decide) (by decide) (by decide) rfl rfl⟩

/-- C8: when the fetch of a pass reports NotFound, `Reconcile` returns the empty
result with no error, issues no status update and leaves the store as it was. -/
theorem reconcile_not_found (env : Env) (c : Cluster) (req : Request) (e : APIError)
    (hget : Get env.getErr c req.NamespacedName = Except.error e)
    (hnf : IsNotFound e = true) :
    (Reconcile env c req).result = Result.empty ∧
    (Reconcile env c req).err = none ∧
    (Reconcile env c req).cluster.statusUpdates = c.statusUpdates ∧
    (Reconcile env c req).cluster.objects = c.objects := by
  rw [Reconcile_getErr hget, if_pos hnf]
  exact ⟨rfl, rfl, rfl, rfl⟩

/-- C8, at a request for `default/gone`, which the store does not hold. -/
theorem reconcile_not_found_witness :
    Get (envOk JobState.Absent).getErr (sampleCluster (sampleStatus "Running" ""))
        { Namespace := "default", Name := "gone" }
      = Except.error { Reason := StatusReason.NotFound, Code := 404, Message := "echoes \"gone\" not found" } ∧
    (Reconcile (envOk JobState.Absent) (sampleCluster (sampleStatus "Running" ""))
        { NamespacedName := { Namespace := "default", Name := "gone" } }).err = none ∧
    (Reconcile (envOk JobState.Absent) (sampleCluster (sampleStatus "Running" ""))
        { NamespacedName := { Namespace := "default", Name := "gone" } }).cluster.statusUpdates
      = [] :=
  ⟨rfl,
   (reconcile_not_found (envOk JobState.Absent) (sampleCluster (sampleStatus "Running" ""))
      { NamespacedName := { Namespace := "default", Name := "gone" } }
      { Reason := StatusReason.NotFound, Code := 404, Message := "echoes \"gone\" not found" } rfl rfl).2.1,
   (reconcile_not_found (envOk JobState.Absent) (sampleCluster (sampleStatus "Running" ""))
      { NamespacedName := { Namespace := "default", Name := "gone" } }
      { Reason := StatusReason.NotFound, Code := 404, Message := "echoes \"gone\" not found" } rfl rfl).2.2.1⟩

/-- A fetch error whose status has HTTP code 404 and a reason outside the known
ones is classed NotFound by `errors.IsNotFound`, so `Reconcile` swallows it. -/
theorem Reconcile_fetch_code404 (env : Env) (c : Cluster) (req : Request) (msg : String)
    (h : env.getErr = some { Reason := StatusReason.Unknown, Code := 404, Message := msg }) :
    Reconcile env c req = { result := Result.empty, err := none, cluster := c } := by
  have hg : Get env.getErr c req.NamespacedName
      = Except.error { Reason := StatusReason.Unknown, Code := 404, Message := msg } := by
    simp [Get, h]
  rw [Reconcile_getErr hg]
  rfl

/-- C9: when the fetch of a pass fails with an error that is not NotFound,
`Reconcile` returns exactly that error with the empty result, issues no status
update and leaves the store as it was. -/
theorem reconcile_fetch_error (env : Env) (c : Cluster) (req : Request) (e : APIError)
    (hget : Get env.getErr c req.NamespacedName = Except.error e)
    (hnf : IsNotFound e = false) :
    (Reconcile env c req).result = Result.empty ∧
    (Reconcile env c req).err = some e ∧
    (Reconcile env c req).cluster.statusUpdates = c.statusUpdates ∧
    (Reconcile env c req).cluster.objects = c.objects := by
  rw [Reconcile_getErr hget, hnf]
  exact ⟨rfl, rfl, rfl, rfl⟩

/-- C9, at a store that answers the fetch with ServiceUnavailable. -/
theorem reconcile_fetch_error_witness :
    Get envGetDown.getErr (sampleCluster (sampleStatus "Pending" "")) sampleReq.NamespacedName
      = Except.error { Reason := StatusReason.ServiceUnavailable, Code := 503, Message := "etcd unavailable" } ∧
    (Reconcile envGetDown (sampleCluster (sampleStatus "Pending" "")) sampleReq).err
      = some { Reason := StatusReason.ServiceUnavailable, Code := 503, Message := "etcd unavailable" } ∧
    (Reconcile envGetDown (sampleCluster (sampleStatus "Pending" "")) sampleReq).cluster.objects
      = (sampleCluster (sampleStatus "Pending" "")).objects :=
  ⟨rfl,
   (reconcile_fetch_error envGetDown (sampleCluster (sampleStatus "Pending" "")) sampleReq
      { Reason := StatusReason.ServiceUnavailable, Code := 503, Message := "etcd unavailable" } rfl rfl).2.1,
   (reconcile_fetch_error envGetDown (sampleCluster (sampleStatus "Pending" "")) sampleReq
      { Reason := StatusReason.ServiceUnavailable, Code := 503, Message := "etcd unavailable" } rfl rfl).2.2.2⟩

/-- The pass on a stored Echo in a non-terminal phase whose status update the
store rejects: the error of the update is returned with the empty result, one
update request was issued, and the stored objects are as before. -/
theorem Reconcile_update_rejected {env : Env} {c : Cluster} {req : Request} {echo : Echo}
    {e : APIError}
    (hstored : c.lookup req.NamespacedName = some echo)
    (h3 : echo.Status.Phase ≠ EchoPhaseCompleted) (h4 : echo.Status.Phase ≠ EchoPhaseFailed)
    (hget : env.getErr = none) (hupd : env.updateErr = some e) :
    (Reconcile env c req).result = Result.empty ∧
    (Reconcile env c req).err = some e ∧
    (Reconcile env c req).cluster.objects = c.objects ∧
    (Reconcile env c req).cluster.statusUpdates.length = c.statusUpdates.length + 1 := by
  have hg := Get_stored hstored hget
  by_cases h0 : echo.Status.Phase = ""
  · rw [Reconcile_new hg h0, handleNewEcho_err hupd]
    exact ⟨rfl, rfl, rfl, rfl⟩
  by_cases h1 : echo.Status.Phase = EchoPhasePending
  · rw [Reconcile_pending hg h1, handlePendingEcho_err hupd]
    exact ⟨rfl, rfl, rfl, rfl⟩
  by_cases h2 : echo.Status.Phase = EchoPhaseRunning
  · rw [Reconcile_running hg h2, handleRunningEcho_err hupd]
    exact ⟨rfl, rfl, rfl, rfl⟩
  rw [Reconcile_unknown hg h0 h1 h2 h3 h4, handleNewEcho_err hupd]
  exact ⟨rfl, rfl, rfl, rfl⟩

/-- C10, as the code has it: for a stored Echo in a non-terminal phase, when
the status update of a fetched pass is rejected with a version conflict,
`Reconcile` returns that conflict error with the empty result, and the stored
resource is not overwritten. -/
theorem reconcile_conflict_returned (env : Env) (c : Cluster) (req : Request) (echo : Echo)
    (e : APIError)
    (hstored : c.lookup req.NamespacedName = some echo)
    (h3 : echo.Status.Phase ≠ EchoPhaseCompleted) (h4 : echo.Status.Phase ≠ EchoPhaseFailed)
    (hget : env.getErr = none) (hupd : env.updateErr = some e) (_hc : IsConflict e = true) :
    (Reconcile env c req).result = Result.empty ∧
    (Reconcile env c req).err = some e ∧
    (Reconcile env c req).cluster.objects = c.objects ∧
    (Reconcile env c req).cluster.lookup req.NamespacedName = some echo := by
  obtain ⟨hr, he, ho, _⟩ := Reconcile_update_rejected hstored h3 h4 hget hupd
  refine ⟨hr, he, ho, ?_⟩
  unfold Cluster.lookup at hstored ⊢
  rw [ho]
  exact hstored

/-- C10 as amended, at the stored Echo `default/demo` in phase Pending and a
store that rejects the status update with a conflict. -/
theorem reconcile_conflict_returned_witness :
    (sampleCluster (sampleStatus "Pending" "")).lookup sampleReq.NamespacedName
        = some (sampleEcho (sampleStatus "Pending" "")) ∧
    IsConflict conflictErr = true ∧
    (Reconcile envConflict (sampleCluster (sampleStatus "Pending" "")) sampleReq).result
      = Result.empty ∧
    (Reconcile envConflict (sampleCluster (sampleStatus "Pending" "")) sampleReq).err
      = some conflictErr ∧
    (Reconcile envConflict (sampleCluster (sampleStatus "Pending" "")) sampleReq).cluster.objects
      = (sampleCluster (sampleStatus "Pending" "")).objects ∧
    (Reconcile envConflict (sampleCluster (sampleStatus "Pending" ""))
        sampleReq).cluster.lookup sampleReq.NamespacedName
      = some (sampleEcho (sampleStatus "Pending" "")) :=
  ⟨by decide, rfl,
   reconcile_conflict_returned envConflict (sampleCluster (sampleStatus "Pending" "")) sampleReq
      (sampleEcho (sampleStatus "Pending" "")) conflictErr (by decide) (by decide) (by decide)
      rfl rfl rfl⟩

/-- C10 as stated fails: the stored Echo `default/demo` is in the non-terminal
phase Pending, the store rejects the status update with a version conflict, and
`Reconcile` returns that error instead of no error. -/
theorem reconcile_conflict_counterexample :
    (sampleCluster (sampleStatus "Pending" "")).lookup sampleReq.NamespacedName
        = some (sampleEcho (sampleStatus "Pending" "")) ∧
    envConflict.getErr = none ∧
    envConflict.updateErr = some conflictErr ∧
    IsConflict conflictErr = true ∧
    (Reconcile envConflict (sampleCluster (sampleStatus "Pending" "")) sampleReq).err
      = some conflictErr ∧
    (Reconcile envConflict (sampleCluster (sampleStatus "Pending" "")) sampleReq).err ≠ none := by
  refine ⟨by decide, rfl, rfl, rfl, by decide, by decide⟩

/-! ## One pass as a step on the stored object -/

/-- The pass on a stored Echo in a non-terminal phase when the store accepts
the fetch and the status update: the handler's status is committed and the
handler's result is returned. -/
theorem Reconcile_commit {env : Env} {c : Cluster} {req : Request} {echo : Echo}
    (hstored : c.lookup req.NamespacedName = some echo)
    (h3 : echo.Status.Phase ≠ EchoPhaseCompleted) (h4 : echo.Status.Phase ≠ EchoPhaseFailed)
    (hget : env.getErr = none) (hupd : env.updateErr = none) :
    Reconcile env c req
      = { result := nextResult echo, err := none, cluster := committed c echo (nextStatus echo) } := by
  have hg := Get_stored hstored hget
  have hk : c.lookup echo.key = some echo := by rw [lookup_key hstored]; exact hstored
  by_cases h0 : echo.Status.Phase = ""
  · rw [Reconcile_new hg h0, handleNewEcho_ok hk hupd]
    simp [nextResult, nextStatus, h0]
  by_cases h1 : echo.Status.Phase = EchoPhasePending
  · rw [Reconcile_pending hg h1, handlePendingEcho_ok hk hupd]
    simp [nextResult, nextStatus, h1, EchoPhasePending]
  by_cases h2 : echo.Status.Phase = EchoPhaseRunning
  · rw [Reconcile_running hg h2, handleRunningEcho_ok hk hupd]
    simp [nextResult, nextStatus, h2, EchoPhasePending, EchoPhaseRunning]
  rw [Reconcile_unknown hg h0 h1 h2 h3 h4, handleNewEcho_ok hk hupd]
  simp [nextResult, nextStatus, h0, h1, h2, h3, h4]

theorem isTerminal_false {p : EchoPhase} (h : isTerminal p = false) :
    p ≠ EchoPhaseCompleted ∧ p ≠ EchoPhaseFailed := by
  simpa [isTerminal] using h

theorem isTerminal_true {p : EchoPhase} (h : isTerminal p = true) :
    p = EchoPhaseCompleted ∨ p = EchoPhaseFailed := by
  simpa [isTerminal] using h

/-- The pass on a stored Echo when the store accepts every call: the stored
object advances by one step, no error is returned, and the result is the one
of the phase. -/
theorem Reconcile_advance {env : Env} {c : Cluster} {req : Request} {echo : Echo}
    (hstored : c.lookup req.NamespacedName = some echo)
    (hget : env.getErr = none) (hupd : env.updateErr = none) :
    (Reconcile env c req).result = nextResult echo ∧
    (Reconcile env c req).err = none ∧
    (Reconcile env c req).cluster.lookup req.NamespacedName = some (advance echo) := by
  cases ht : isTerminal echo.Status.Phase with
  | true =>
    have hp := isTerminal_true ht
    rw [Reconcile_terminal (Get_stored hstored hget) hp]
    refine ⟨?_, rfl, ?_⟩
    · rcases hp with hp | hp <;> simp [nextResult, hp, EchoPhaseCompleted, EchoPhaseFailed,
        EchoPhasePending, EchoPhaseRunning]
    · simpa [advance, ht] using hstored
  | false =>
    obtain ⟨h3, h4⟩ := isTerminal_false ht
    rw [Reconcile_commit hstored h3 h4 hget hupd]
    refine ⟨rfl, rfl, ?_⟩
    simp only [advance, ht]
    exact lookup_committed _ hstored

/-- The stored object after a pass, whatever the store answers: it advances by
one step when the fetch and the status update both succeed, and is the stored
one otherwise. -/
theorem Reconcile_lookup {env : Env} {c : Cluster} {req : Request} {echo : Echo}
    (hstored : c.lookup req.NamespacedName = some echo) :
    (Reconcile env c req).cluster.lookup req.NamespacedName
      = some (if env.getErr = none ∧ env.updateErr = none then advance echo else echo) := by
  cases hget : env.getErr with
  | some e =>
    have hg : Get env.getErr c req.NamespacedName = Except.error e := by simp [Get, hget]
    rw [Reconcile_getErr hg]
    split <;> simpa using hstored
  | none =>
    cases hupd : env.updateErr with
    | none => simpa using (Reconcile_advance hstored hget hupd).2.2
    | some e =>
      cases ht : isTerminal echo.Status.Phase with
      | true =>
        rw [Reconcile_terminal (Get_stored hstored hget) (isTerminal_true ht)]
        simpa using hstored
      | false =>
        obtain ⟨h3, h4⟩ := isTerminal_false ht
        have ho := (Reconcile_update_rejected hstored h3 h4 hget hupd).2.2.1
        unfold Cluster.lookup at hstored ⊢
        rw [ho]
        simpa using hstored

theorem advance_unset {echo : Echo} (h : echo.Status.Phase = "") :
    advance echo
      = { echo with Status := newStatus echo, ResourceVersion := echo.ResourceVersion + 1 } := by
  simp [advance, isTerminal, nextStatus, h, EchoPhaseCompleted, EchoPhaseFailed]

theorem advance_pending {echo : Echo} (h : echo.Status.Phase = EchoPhasePending) :
    advance echo
      = { echo with Status := pendingStatus echo, ResourceVersion := echo.ResourceVersion + 1 } := by
  simp [advance, isTerminal, nextStatus, h, EchoPhaseCompleted, EchoPhaseFailed, EchoPhasePending]

theorem advance_running {echo : Echo} (h : echo.Status.Phase = EchoPhaseRunning) :
    advance echo
      = { echo with Status := runningStatus echo, ResourceVersion := echo.ResourceVersion + 1 } := by
  simp [advance, isTerminal, nextStatus, h, EchoPhaseCompleted, EchoPhaseFailed, EchoPhasePending,
    EchoPhaseRunning]

theorem advance_terminal {echo : Echo}
    (h : echo.Status.Phase = EchoPhaseCompleted ∨ echo.Status.Phase = EchoPhaseFailed) :
    advance echo = echo := by
  rcases h with h | h <;> simp [advance, isTerminal, h]

theorem advance_unknown {echo : Echo}
    (h0 : echo.Status.Phase ≠ "") (h1 : echo.Status.Phase ≠ EchoPhasePending)
    (h2 : echo.Status.Phase ≠ EchoPhaseRunning) (h3 : echo.Status.Phase ≠ EchoPhaseCompleted)
    (h4 : echo.Status.Phase ≠ EchoPhaseFailed) :
    advance echo
      = { echo with Status := newStatus echo, ResourceVersion := echo.ResourceVersion + 1 } := by
  simp [advance, isTerminal, nextStatus, h0, h1, h2, h3, h4]

/-! ## Sequences of passes -/

/-- C11: for every resource name and spec message `m`, starting from a freshly
created Echo (empty status) and running three passes whose fetches and status
updates succeed, the job being reported succeeded on the third: after the first
pass the stored phase is Pending; after the second it is Running with
`status.jobName = "echo-job-" ++ name`; after the third it is Completed and
`status.message` contains `m`. -/
theorem three_passes_complete (e1 e2 e3 : Env) (c : Cluster) (req : Request) (echo : Echo)
    (m : String)
    (hstored : c.lookup req.NamespacedName = some echo)
    (hfresh : echo.Status = freshStatus) (hmsg : echo.Spec.Message = m)
    (hg1 : e1.getErr = none) (hu1 : e1.updateErr = none)
    (hg2 : e2.getErr = none) (hu2 : e2.updateErr = none)
    (hg3 : e3.getErr = none) (hu3 : e3.updateErr = none)
    (_hjob : e3.job = JobState.Succeeded) :
    (∃ s1, (Reconcile e1 c req).cluster.lookup req.NamespacedName = some s1 ∧
      s1.Status.Phase = EchoPhasePending) ∧
    (∃ s2, (Reconcile e2 (Reconcile e1 c req).cluster req).cluster.lookup req.NamespacedName
        = some s2 ∧
      s2.Status.Phase = EchoPhaseRunning ∧
      s2.Status.JobName = "echo-job-" ++ req.NamespacedName.Name) ∧
    (∃ s3, (Reconcile e3 (Reconcile e2 (Reconcile e1 c req).cluster req).cluster req).cluster.lookup
        req.NamespacedName = some s3 ∧
      s3.Status.Phase = EchoPhaseCompleted ∧
      ∃ pre post : String, s3.Status.Message = pre ++ m ++ post) := by
  have hname : echo.Name = req.NamespacedName.Name :=
    congrArg NamespacedName.Name (lookup_key hstored)
  have hp0 : echo.Status.Phase = "" := by rw [hfresh]; rfl
  have l1 := (Reconcile_advance hstored hg1 hu1).2.2
  rw [advance_unset hp0] at l1
  have l2 := (Reconcile_advance l1 hg2 hu2).2.2
  rw [advance_pending rfl] at l2
  have l3 := (Reconcile_advance l2 hg3 hu3).2.2
  rw [advance_running rfl] at l3
  refine ⟨⟨_, l1, rfl⟩, ⟨_, l2, rfl, ?_⟩, ⟨_, l3, rfl, ?_⟩⟩
  · simp [pendingStatus, hname]
  · refine ⟨"Job " ++ ("echo-job-" ++ echo.Name) ++ " completed successfully. Message \x27",
      "\x27 was echoed.", ?_⟩
    simp [runningStatus, pendingStatus, hmsg]

/-- C11, at the freshly created Echo `default/demo` with message `"hello"`. -/
theorem three_passes_complete_witness :
    (sampleCluster freshStatus).lookup sampleReq.NamespacedName = some (sampleEcho freshStatus) ∧
    (sampleEcho freshStatus).Spec.Message = "hello" ∧
    ((Reconcile (envOk JobState.Absent) (sampleCluster freshStatus) sampleReq).cluster.lookup
        sampleReq.NamespacedName).map (fun e => e.Status.Phase) = some "Pending" ∧
    ((Reconcile (envOk JobState.Running)
        (Reconcile (envOk JobState.Absent) (sampleCluster freshStatus) sampleReq).cluster
        sampleReq).cluster.lookup sampleReq.NamespacedName).map
          (fun e => (e.Status.Phase, e.Status.JobName))
      = some ("Running", "echo-job-demo") ∧
    ((Reconcile (envOk JobState.Succeeded) (Reconcile (envOk JobState.Running)
        (Reconcile (envOk JobState.Absent) (sampleCluster freshStatus) sampleReq).cluster
        sampleReq).cluster sampleReq).cluster.lookup sampleReq.NamespacedName).map
          (fun e => (e.Status.Phase, e.Status.Message))
      = some ("Completed",
          "Job echo-job-demo completed successfully. Message \x27hello\x27 was echoed.") ∧
    ∃ s3, (Reconcile (envOk JobState.Succeeded) (Reconcile (envOk JobState.Running)
        (Reconcile (envOk JobState.Absent) (sampleCluster freshStatus) sampleReq).cluster
        sampleReq).cluster sampleReq).cluster.lookup sampleReq.NamespacedName = some s3 ∧
      s3.Status.Phase = "Completed" ∧
      ∃ pre post : String, s3.Status.Message = pre ++ "hello" ++ post :=
  ⟨by decide, rfl, by decide, by decide, by decide,
   (three_passes_complete (envOk JobState.Absent) (envOk JobState.Running)
      (envOk JobState.Succeeded) (sampleCluster freshStatus) sampleReq (sampleEcho freshStatus)
      "hello" (by decide) rfl rfl rfl rfl rfl rfl rfl rfl rfl).2.2⟩

/-! ## The transition table -/

/-- The phase after one step of the stored object, by the phase before. -/
theorem advance_phase (echo : Echo) :
    (echo.Status.Phase = "" ∧ (advance echo).Status.Phase = EchoPhasePending) ∨
    (echo.Status.Phase = EchoPhasePending ∧ (advance echo).Status.Phase = EchoPhaseRunning) ∨
    (echo.Status.Phase = EchoPhaseRunning ∧ (advance echo).Status.Phase = EchoPhaseCompleted) ∨
    ((echo.Status.Phase = EchoPhaseCompleted ∨ echo.Status.Phase = EchoPhaseFailed) ∧
      advance echo = echo) ∨
    (isUnknown echo.Status.Phase = true ∧ (advance echo).Status.Phase = EchoPhasePending) := by
  by_cases h0 : echo.Status.Phase = ""
  · exact Or.inl ⟨h0, by rw [advance_unset h0]; rfl⟩
  by_cases h1 : echo.Status.Phase = EchoPhasePending
  · exact Or.inr (Or.inl ⟨h1, by rw [advance_pending h1]; rfl⟩)
  by_cases h2 : echo.Status.Phase = EchoPhaseRunning
  · exact Or.inr (Or.inr (Or.inl ⟨h2, by rw [advance_running h2]; rfl⟩))
  by_cases h3 : echo.Status.Phase = EchoPhaseCompleted
  · exact Or.inr (Or.inr (Or.inr (Or.inl ⟨Or.inl h3, advance_terminal (Or.inl h3)⟩)))
  by_cases h4 : echo.Status.Phase = EchoPhaseFailed
  · exact Or.inr (Or.inr (Or.inr (Or.inl ⟨Or.inr h4, advance_terminal (Or.inr h4)⟩)))
  refine Or.inr (Or.inr (Or.inr (Or.inr ⟨?_, ?_⟩)))
  · simp [isUnknown, h0, h1, h2, h3, h4]
  · rw [advance_unknown h0 h1 h2 h3 h4]; rfl

/-- Staying in the same phase is a transition of the table. -/
theorem tableTransition_self (p : EchoPhase) : tableTransition p p = true := by
  by_cases h0 : p = ""
  · subst h0; decide
  by_cases h1 : p = EchoPhasePending
  · subst h1; decide
  by_cases h2 : p = EchoPhaseRunning
  · subst h2; decide
  by_cases h3 : p = EchoPhaseCompleted
  · subst h3; decide
  by_cases h4 : p = EchoPhaseFailed
  · subst h4; decide
  simp [tableTransition, isUnknown, h0, h1, h2, h3, h4]

/-- One step of the stored object is a transition of the table. -/
theorem tableTransition_advance (echo : Echo) :
    tableTransition echo.Status.Phase (advance echo).Status.Phase = true := by
  rcases advance_phase echo with ⟨h, ha⟩ | ⟨h, ha⟩ | ⟨h, ha⟩ | ⟨_, ha⟩ | ⟨h, ha⟩
  · rw [h, ha]; decide
  · rw [h, ha]; decide
  · rw [h, ha]; decide
  · rw [ha]; exact tableTransition_self _
  · rw [ha]; simp [tableTransition, h]

/-- A transition of the table never lowers the position of a valid phase. -/
theorem tableTransition_rank {p q : EchoPhase} (h : tableTransition p q = true) (a : Nat)
    (ha : phaseRank p = some a) : ∃ b, phaseRank q = some b ∧ a ≤ b := by
  by_cases hu : isUnknown p = true
  · have : phaseRank p = none := by
      simp only [isUnknown, Bool.not_eq_true', Bool.or_eq_false_iff, decide_eq_false_iff_not] at hu
      obtain ⟨⟨⟨⟨h0, h1⟩, h2⟩, h3⟩, h4⟩ := hu
      simp [phaseRank, h0, h1, h2, h3, h4]
    rw [this] at ha
    cases ha
  · simp only [tableTransition, hu, Bool.false_and, Bool.or_false, Bool.or_eq_true,
      Bool.and_eq_true, decide_eq_true_eq] at h
    rcases h with (((⟨hp, hq | hq⟩ | ⟨hp, hq | hq⟩) | ⟨hp, (hq | hq) | hq⟩) | ⟨hp, hq⟩) | ⟨hp, hq⟩ <;>
      subst hp <;> subst hq <;> cases ha <;> exact ⟨_, rfl, by decide⟩

/-- A transition of the table leaves a terminal phase as it is. -/
theorem tableTransition_terminal {p q : EchoPhase} (h : tableTransition p q = true)
    (ht : isTerminal p = true) : q = p := by
  rcases isTerminal_true ht with hp | hp <;> subst hp <;>
    simpa [tableTransition, isUnknown, EchoPhaseCompleted, EchoPhaseFailed, EchoPhasePending,
      EchoPhaseRunning] using h

/-- C12: for every stored Echo and every outcome of the fetch and of the status
update, the stored phase before a pass and the stored phase after it form a
transition of the table; in particular a valid phase never moves backward and
a terminal phase is never left. -/
theorem reconcile_follows_table (env : Env) (c : Cluster) (req : Request) (echo : Echo)
    (hstored : c.lookup req.NamespacedName = some echo) :
    ∃ stored, (Reconcile env c req).cluster.lookup req.NamespacedName = some stored ∧
      tableTransition echo.Status.Phase stored.Status.Phase = true ∧
      (∀ a, phaseRank echo.Status.Phase = some a →
        ∃ b, phaseRank stored.Status.Phase = some b ∧ a ≤ b) ∧
      (isTerminal echo.Status.Phase = true → stored.Status.Phase = echo.Status.Phase) := by
  have ht : tableTransition echo.Status.Phase
      (if env.getErr = none ∧ env.updateErr = none then advance echo else echo).Status.Phase
        = true := by
    split
    · exact tableTransition_advance echo
    · exact tableTransition_self _
  exact ⟨_, Reconcile_lookup hstored, ht, tableTransition_rank ht, tableTransition_terminal ht⟩

/-- C12, at the stored Echo `default/demo` in phase Pending, once with a store
that accepts the update and once with a store that rejects it. -/
theorem reconcile_follows_table_witness :
    (sampleCluster (sampleStatus "Pending" "")).lookup sampleReq.NamespacedName
        = some (sampleEcho (sampleStatus "Pending" "")) ∧
    ((Reconcile (envOk JobState.Running) (sampleCluster (sampleStatus "Pending" ""))
        sampleReq).cluster.lookup sampleReq.NamespacedName).map (fun e => e.Status.Phase)
      = some "Running" ∧
    ((Reconcile envConflict (sampleCluster (sampleStatus "Pending" ""))
        sampleReq).cluster.lookup sampleReq.NamespacedName).map (fun e => e.Status.Phase)
      = some "Pending" ∧
    (∃ stored, (Reconcile (envOk JobState.Running) (sampleCluster (sampleStatus "Pending" ""))
        sampleReq).cluster.lookup sampleReq.NamespacedName = some stored ∧
      tableTransition "Pending" stored.Status.Phase = true) ∧
    (∃ stored, (Reconcile envConflict (sampleCluster (sampleStatus "Pending" ""))
        sampleReq).cluster.lookup sampleReq.NamespacedName = some stored ∧
      tableTransition "Pending" stored.Status.Phase = true) :=
  ⟨by decide, by decide, by decide,
   (reconcile_follows_table (envOk JobState.Running) (sampleCluster (sampleStatus "Pending" ""))
      sampleReq (sampleEcho (sampleStatus "Pending" "")) (by decide)).imp
        (fun _ h => ⟨h.1, h.2.1⟩),
   (reconcile_follows_table envConflict (sampleCluster (sampleStatus "Pending" ""))
      sampleReq (sampleEcho (sampleStatus "Pending" "")) (by decide)).imp
        (fun _ h => ⟨h.1, h.2.1⟩)⟩

/-! ## The job name and the execution time -/

/-- The job name after one step of the stored object: the derived name when the
phase is Pending, the stored one otherwise. -/
theorem advance_jobName (echo : Echo) :
    (advance echo).Status.JobName
      = if echo.Status.Phase = EchoPhasePending then "echo-job-" ++ echo.Name
        else echo.Status.JobName := by
  by_cases h1 : echo.Status.Phase = EchoPhasePending
  · rw [advance_pending h1, if_pos h1]; rfl
  · rw [if_neg h1]
    rcases advance_phase echo with ⟨h, _⟩ | ⟨h, _⟩ | ⟨h, _⟩ | ⟨_, ha⟩ | ⟨h, _⟩
    · rw [advance_unset h]; rfl
    · exact absurd h h1
    · rw [advance_running h]; rfl
    · rw [ha]
    · simp only [isUnknown, Bool.not_eq_true', Bool.or_eq_false_iff,
        decide_eq_false_iff_not] at h
      obtain ⟨⟨⟨⟨h0, _⟩, h2⟩, h3⟩, h4⟩ := h
      rw [advance_unknown h0 h1 h2 h3 h4]; rfl

/-- C13, as the code has it: for every stored Echo whose `status.jobName` is
non-empty and every outcome of the store calls, the stored job name after a
pass is the one before it, except when the stored phase is Pending and the
fetch and the status update both succeed: then it is `"echo-job-" ++ name`,
whatever was stored. -/
theorem reconcile_jobName_kept (env : Env) (c : Cluster) (req : Request) (echo : Echo)
    (hstored : c.lookup req.NamespacedName = some echo)
    (_hset : echo.Status.JobName ≠ "") :
    ∃ stored, (Reconcile env c req).cluster.lookup req.NamespacedName = some stored ∧
      stored.Status.JobName
        = if echo.Status.Phase = EchoPhasePending ∧ env.getErr = none ∧ env.updateErr = none
          then "echo-job-" ++ echo.Name
          else echo.Status.JobName := by
  refine ⟨_, Reconcile_lookup hstored, ?_⟩
  by_cases hok : env.getErr = none ∧ env.updateErr = none
  · rw [if_pos hok, advance_jobName]
    by_cases h1 : echo.Status.Phase = EchoPhasePending
    · rw [if_pos h1, if_pos ⟨h1, hok⟩]
    · rw [if_neg h1, if_neg (fun h => h1 h.1)]
  · rw [if_neg hok, if_neg (fun h => hok h.2)]

/-- C13 as amended, at the stored Echo `default/demo` in phase Running with a
job name that is not the derived one. -/
theorem reconcile_jobName_kept_witness :
    (sampleCluster (sampleStatus "Running" "manual-job")).lookup sampleReq.NamespacedName
        = some (sampleEcho (sampleStatus "Running" "manual-job")) ∧
    (sampleEcho (sampleStatus "Running" "manual-job")).Status.JobName ≠ "" ∧
    ∃ stored, (Reconcile (envOk JobState.Succeeded)
        (sampleCluster (sampleStatus "Running" "manual-job")) sampleReq).cluster.lookup
          sampleReq.NamespacedName = some stored ∧
      stored.Status.JobName = "manual-job" :=
  ⟨by decide, by decide,
   reconcile_jobName_kept (envOk JobState.Succeeded)
      (sampleCluster (sampleStatus "Running" "manual-job")) sampleReq
      (sampleEcho (sampleStatus "Running" "manual-job")) (by decide) (by decide)⟩

/-- C13 as stated fails: the stored Echo `default/demo` is in phase Pending with
the non-empty job name `"manual-job"`, every store call succeeds, and the pass
stores the job name `"echo-job-demo"`. -/
theorem reconcile_jobName_counterexample :
    (sampleCluster (sampleStatus "Pending" "manual-job")).lookup sampleReq.NamespacedName
        = some (sampleEcho (sampleStatus "Pending" "manual-job")) ∧
    (sampleEcho (sampleStatus "Pending" "manual-job")).Status.JobName = "manual-job" ∧
    "manual-job" ≠ "" ∧
    ((Reconcile (envOk JobState.Running) (sampleCluster (sampleStatus "Pending" "manual-job"))
        sampleReq).cluster.lookup sampleReq.NamespacedName).map (fun e => e.Status.JobName)
      = some "echo-job-demo" ∧
    ((Reconcile (envOk JobState.Running) (sampleCluster (sampleStatus "Pending" "manual-job"))
        sampleReq).cluster.lookup sampleReq.NamespacedName).map (fun e => e.Status.JobName)
      ≠ some "manual-job" := by
  refine ⟨by decide, rfl, by decide, by decide, by decide⟩

/-- The derived job name determines the resource name. -/
theorem jobName_injective {a b : String} (h : "echo-job-" ++ a = "echo-job-" ++ b) : a = b := by
  have hd := congrArg String.data h
  simp only [String.data_append, List.append_cancel_left_eq] at hd
  exact String.ext hd

/-- C14, as the code has it: the derived job name is collision-free over
resource names: for any two Echo resources in phase Pending whose names differ,
the job names stored by their passes, when fetch and status update succeed,
differ. -/
theorem job_names_differ_by_name (env1 env2 : Env) (c1 c2 : Cluster) (req1 req2 : Request)
    (a b : Echo)
    (hs1 : c1.lookup req1.NamespacedName = some a) (hs2 : c2.lookup req2.NamespacedName = some b)
    (hp1 : a.Status.Phase = EchoPhasePending) (hp2 : b.Status.Phase = EchoPhasePending)
    (hg1 : env1.getErr = none) (hu1 : env1.updateErr = none)
    (hg2 : env2.getErr = none) (hu2 : env2.updateErr = none)
    (hne : req1.NamespacedName.Name ≠ req2.NamespacedName.Name) :
    ∃ s1 s2, (Reconcile env1 c1 req1).cluster.lookup req1.NamespacedName = some s1 ∧
      (Reconcile env2 c2 req2).cluster.lookup req2.NamespacedName = some s2 ∧
      s1.Status.JobName = "echo-job-" ++ req1.NamespacedName.Name ∧
      s2.Status.JobName = "echo-job-" ++ req2.NamespacedName.Name ∧
      s1.Status.JobName ≠ s2.Status.JobName := by
  have hn1 : a.Name = req1.NamespacedName.Name := congrArg NamespacedName.Name (lookup_key hs1)
  have hn2 : b.Name = req2.NamespacedName.Name := congrArg NamespacedName.Name (lookup_key hs2)
  have l1 := (Reconcile_advance hs1 hg1 hu1).2.2
  have l2 := (Reconcile_advance hs2 hg2 hu2).2.2
  have j1 : (advance a).Status.JobName = "echo-job-" ++ req1.NamespacedName.Name := by
    rw [advance_jobName, if_pos hp1, hn1]
  have j2 : (advance b).Status.JobName = "echo-job-" ++ req2.NamespacedName.Name := by
    rw [advance_jobName, if_pos hp2, hn2]
  refine ⟨_, _, l1, l2, j1, j2, ?_⟩
  rw [j1, j2]
  exact fun h => hne (jobName_injective h)

/-- C14 as amended, at `default/demo` and `default/second`, both Pending. -/
theorem job_names_differ_by_name_witness :
    twoNames.lookup sampleReq.NamespacedName = some (sampleEcho (sampleStatus "Pending" "")) ∧
    (twoNames.lookup secondReq.NamespacedName).map (fun e => e.Status.Phase) = some "Pending" ∧
    sampleReq.NamespacedName.Name ≠ secondReq.NamespacedName.Name ∧
    ∃ s1 s2, (Reconcile (envOk JobState.Running) twoNames sampleReq).cluster.lookup
        sampleReq.NamespacedName = some s1 ∧
      (Reconcile (envOk JobState.Running) twoNames secondReq).cluster.lookup
        secondReq.NamespacedName = some s2 ∧
      s1.Status.JobName = "echo-job-demo" ∧
      s2.Status.JobName = "echo-job-second" ∧
      s1.Status.JobName ≠ s2.Status.JobName :=
  ⟨by decide, by decide, by decide,
   job_names_differ_by_name (envOk JobState.Running) (envOk JobState.Running) twoNames twoNames
      sampleReq secondReq (sampleEcho (sampleStatus "Pending" ""))
      { Namespace := "default", Name := "second", ResourceVersion := 1,
        Spec := { Message := "bye" }, Status := sampleStatus "Pending" "" }
      (by decide) (by decide) (by decide) (by decide) rfl rfl rfl rfl (by decide)⟩

/-- C14 as stated fails: `default/demo` and `other/demo` are two stored Echo
resources in phase Pending whose identities differ, and the passes for them,
with every store call succeeding, store the same job name `"echo-job-demo"`. -/
theorem job_names_collide_counterexample :
    (twoNamespaces.lookup sampleReq.NamespacedName).map (fun e => (e.key, e.Status.Phase))
      = some ({ Namespace := "default", Name := "demo" }, "Pending") ∧
    (twoNamespaces.lookup otherReq.NamespacedName).map (fun e => (e.key, e.Status.Phase))
      = some ({ Namespace := "other", Name := "demo" }, "Pending") ∧
    sampleReq.NamespacedName ≠ otherReq.NamespacedName ∧
    ((Reconcile (envOk JobState.Running) twoNamespaces sampleReq).cluster.lookup
        sampleReq.NamespacedName).map (fun e => e.Status.JobName) = some "echo-job-demo" ∧
    ((Reconcile (envOk JobState.Running) twoNamespaces otherReq).cluster.lookup
        otherReq.NamespacedName).map (fun e => e.Status.JobName) = some "echo-job-demo" ∧
    ((Reconcile (envOk JobState.Running)
        (Reconcile (envOk JobState.Running) twoNamespaces sampleReq).cluster otherReq).cluster.lookup
        otherReq.NamespacedName).map (fun e => e.Status.JobName) = some "echo-job-demo" := by
  refine ⟨by decide, by decide, by decide, by decide, by decide, by decide⟩

/-- C15, as the code has it: for a stored Echo in phase Pending, the pass that
moves it to Running (fetch and status update succeed) leaves
`status.lastExecutionTime` as it was stored; no handler writes that field. -/
theorem reconcile_pending_keeps_execution_time (env : Env) (c : Cluster) (req : Request)
    (echo : Echo)
    (hstored : c.lookup req.NamespacedName = some echo)
    (hphase : echo.Status.Phase = EchoPhasePending)
    (hget : env.getErr = none) (hupd : env.updateErr = none) :
    ∃ stored, (Reconcile env c req).cluster.lookup req.NamespacedName = some stored ∧
      stored.Status.Phase = EchoPhaseRunning ∧
      stored.Status.LastExecutionTime = echo.Status.LastExecutionTime := by
  have l := (Reconcile_advance hstored hget hupd).2.2
  rw [advance_pending hphase] at l
  exact ⟨_, l, rfl, rfl⟩

/-- C15 as amended, at the stored Echo `default/demo` in phase Pending whose
execution time is already set. -/
theorem reconcile_pending_keeps_execution_time_witness :
    (sampleCluster { sampleStatus "Pending" "" with LastExecutionTime := some 1700000000 }).lookup
        sampleReq.NamespacedName
      = some (sampleEcho { sampleStatus "Pending" "" with LastExecutionTime := some 1700000000 }) ∧
    ∃ stored, (Reconcile (envOk JobState.Running)
        (sampleCluster { sampleStatus "Pending" "" with LastExecutionTime := some 1700000000 })
        sampleReq).cluster.lookup sampleReq.NamespacedName = some stored ∧
      stored.Status.Phase = "Running" ∧
      stored.Status.LastExecutionTime = some 1700000000 :=
  ⟨by decide,
   reconcile_pending_keeps_execution_time (envOk JobState.Running)
      (sampleCluster { sampleStatus "Pending" "" with LastExecutionTime := some 1700000000 })
      sampleReq
      (sampleEcho { sampleStatus "Pending" "" with LastExecutionTime := some 1700000000 })
      (by decide) (by decide) rfl rfl⟩

/-- C15 as stated fails: the stored Echo `default/demo` is in phase Pending with
no execution time, every store call succeeds, the pass moves it to Running, and
the stored `status.lastExecutionTime` is still unset. -/
theorem reconcile_execution_time_counterexample :
    (sampleCluster (sampleStatus "Pending" "")).lookup sampleReq.NamespacedName
        = some (sampleEcho (sampleStatus "Pending" "")) ∧
    ((Reconcile (envOk JobState.Running) (sampleCluster (sampleStatus "Pending" ""))
        sampleReq).cluster.lookup sampleReq.NamespacedName).map
          (fun e => (e.Status.Phase, e.Status.LastExecutionTime))
      = some ("Running", none) := by
  refine ⟨by decide, by decide⟩

/-! ## Status writes -/

/-- The pass on a stored Echo in a non-terminal phase whose status update the
store rejects with `e`: the handler's status was requested and not committed. -/
theorem Reconcile_reject {env : Env} {c : Cluster} {req : Request} {echo : Echo} {e : APIError}
    (hstored : c.lookup req.NamespacedName = some echo)
    (h3 : echo.Status.Phase ≠ EchoPhaseCompleted) (h4 : echo.Status.Phase ≠ EchoPhaseFailed)
    (hget : env.getErr = none) (hupd : env.updateErr = some e) :
    Reconcile env c req
      = { result := Result.empty, err := some e, cluster := rejected c echo (nextStatus echo) } := by
  have hg := Get_stored hstored hget
  by_cases h0 : echo.Status.Phase = ""
  · rw [Reconcile_new hg h0, handleNewEcho_err hupd]
    simp [nextStatus, h0]
  by_cases h1 : echo.Status.Phase = EchoPhasePending
  · rw [Reconcile_pending hg h1, handlePendingEcho_err hupd]
    simp [nextStatus, h1, EchoPhasePending]
  by_cases h2 : echo.Status.Phase = EchoPhaseRunning
  · rw [Reconcile_running hg h2, handleRunningEcho_err hupd]
    simp [nextStatus, h2, EchoPhasePending, EchoPhaseRunning]
  rw [Reconcile_unknown hg h0 h1 h2 h3 h4, handleNewEcho_err hupd]
  simp [nextStatus, h0, h1, h2, h3, h4]

/-- The status request a fetched pass issues in a non-terminal phase, whatever
the store answers to it. -/
theorem Reconcile_request {env : Env} {c : Cluster} {req : Request} {echo : Echo}
    (hstored : c.lookup req.NamespacedName = some echo)
    (ht : isTerminal echo.Status.Phase = false) (hget : env.getErr = none) :
    (Reconcile env c req).cluster.statusUpdates
      = { echo with Status := nextStatus echo } :: c.statusUpdates := by
  obtain ⟨h3, h4⟩ := isTerminal_false ht
  cases hupd : env.updateErr with
  | none => rw [Reconcile_commit hstored h3 h4 hget hupd]; rfl
  | some e => rw [Reconcile_reject hstored h3 h4 hget hupd]; rfl

/-- In a non-terminal phase the computed phase is not the stored one. -/
theorem nextStatus_phase_ne {echo : Echo} (ht : isTerminal echo.Status.Phase = false) :
    (nextStatus echo).Phase ≠ echo.Status.Phase := by
  obtain ⟨h3, h4⟩ := isTerminal_false ht
  by_cases h0 : echo.Status.Phase = ""
  · simp [nextStatus, newStatus, h0, EchoPhasePending]
  by_cases h1 : echo.Status.Phase = EchoPhasePending
  · simp [nextStatus, pendingStatus, h1, EchoPhasePending, EchoPhaseRunning]
  by_cases h2 : echo.Status.Phase = EchoPhaseRunning
  · simp [nextStatus, runningStatus, h2, EchoPhasePending, EchoPhaseRunning, EchoPhaseCompleted]
  · simp only [nextStatus, h0, h1, h2, h3, h4, if_false, newStatus]
    exact fun h => h1 h.symm

/-- On a terminal phase no status is computed: the status is the stored one. -/
theorem nextStatus_terminal {echo : Echo} (ht : isTerminal echo.Status.Phase = true) :
    nextStatus echo = echo.Status := by
  rcases isTerminal_true ht with h | h <;>
    simp [nextStatus, h, EchoPhasePending, EchoPhaseRunning, EchoPhaseCompleted, EchoPhaseFailed]

/-- C16: for every Echo that is fetched, one pass issues at most one status
update, and it issues one exactly when the status it computed differs from the
stored status: in a non-terminal phase it issues exactly one, for the computed
status, whose phase differs from the stored phase; in phase Completed or Failed
it issues none. -/
theorem reconcile_status_writes (env : Env) (c : Cluster) (req : Request) (echo : Echo)
    (hstored : c.lookup req.NamespacedName = some echo) (hget : env.getErr = none) :
    (Reconcile env c req).cluster.statusUpdates.length ≤ c.statusUpdates.length + 1 ∧
    ((Reconcile env c req).cluster.statusUpdates.length = c.statusUpdates.length + 1
      ↔ nextStatus echo ≠ echo.Status) ∧
    (isTerminal echo.Status.Phase = false →
      (Reconcile env c req).cluster.statusUpdates
        = { echo with Status := nextStatus echo } :: c.statusUpdates ∧
      (nextStatus echo).Phase ≠ echo.Status.Phase) ∧
    (isTerminal echo.Status.Phase = true →
      (Reconcile env c req).cluster.statusUpdates = c.statusUpdates) := by
  cases ht : isTerminal echo.Status.Phase with
  | true =>
    have h := Reconcile_terminal (Get_stored hstored hget) (isTerminal_true ht)
    rw [h]
    refine ⟨Nat.le_succ _, ?_, fun hf => (by cases hf), fun _ => rfl⟩
    simp [nextStatus_terminal ht]
  | false =>
    have h := Reconcile_request hstored ht hget
    have hne := nextStatus_phase_ne ht
    rw [h]
    refine ⟨by simp, ?_, fun _ => ⟨rfl, hne⟩, fun hf => (by cases hf)⟩
    simp only [List.length_cons, true_iff]
    exact fun heq => hne (congrArg EchoStatus.Phase heq)

/-- C16, at the stored Echo `default/demo`: in phase Running with a store that
rejects the update one request is issued, in phase Completed none. -/
theorem reconcile_status_writes_witness :
    (sampleCluster (sampleStatus "Running" "echo-job-demo")).lookup sampleReq.NamespacedName
        = some (sampleEcho (sampleStatus "Running" "echo-job-demo")) ∧
    (Reconcile envConflict (sampleCluster (sampleStatus "Running" "echo-job-demo"))
        sampleReq).cluster.statusUpdates.length = 1 ∧
    (Reconcile envConflict (sampleCluster (sampleStatus "Completed" "echo-job-demo"))
        sampleReq).cluster.statusUpdates.length = 0 ∧
    (Reconcile envConflict (sampleCluster (sampleStatus "Running" "echo-job-demo"))
        sampleReq).cluster.statusUpdates.length
      ≤ (sampleCluster (sampleStatus "Running" "echo-job-demo")).statusUpdates.length + 1 ∧
    (Reconcile envConflict (sampleCluster (sampleStatus "Completed" "echo-job-demo"))
        sampleReq).cluster.statusUpdates.length
      ≤ (sampleCluster (sampleStatus "Completed" "echo-job-demo")).statusUpdates.length + 1 :=
  ⟨by decide, by decide, by decide,
   (reconcile_status_writes envConflict (sampleCluster (sampleStatus "Running" "echo-job-demo"))
      sampleReq (sampleEcho (sampleStatus "Running" "echo-job-demo")) (by decide) rfl).1,
   (reconcile_status_writes envConflict (sampleCluster (sampleStatus "Completed" "echo-job-demo"))
      sampleReq (sampleEcho (sampleStatus "Completed" "echo-job-demo")) (by decide) rfl).1⟩

/-! ## The status message -/

/-- The message a handler computes is a function of the phase, the resource
name, the job name and the spec message. -/
theorem nextStatus_message_congr {a b : Echo}
    (ht : isTerminal a.Status.Phase = false)
    (hname : a.Name = b.Name) (hspec : a.Spec.Message = b.Spec.Message)
    (hphase : a.Status.Phase = b.Status.Phase) (hjob : a.Status.JobName = b.Status.JobName) :
    (nextStatus a).Message = (nextStatus b).Message := by
  obtain ⟨h3, h4⟩ := isTerminal_false ht
  unfold nextStatus
  rw [← hphase]
  by_cases h0 : a.Status.Phase = ""
  · simp [h0, newStatus]
  by_cases h1 : a.Status.Phase = EchoPhasePending
  · simp [h1, EchoPhasePending, pendingStatus, hname, hspec]
  by_cases h2 : a.Status.Phase = EchoPhaseRunning
  · simp [h2, EchoPhasePending, EchoPhaseRunning, runningStatus, hspec, hjob]
  simp [h0, h1, h2, h3, h4, newStatus]

/-- A pass that changed the stored phase committed the handler's status. -/
theorem Reconcile_changed {env : Env} {c : Cluster} {req : Request} {echo stored : Echo}
    (hstored : c.lookup req.NamespacedName = some echo)
    (hafter : (Reconcile env c req).cluster.lookup req.NamespacedName = some stored)
    (hchg : stored.Status.Phase ≠ echo.Status.Phase) :
    isTerminal echo.Status.Phase = false ∧ stored.Status = nextStatus echo := by
  rw [Reconcile_lookup hstored, Option.some.injEq] at hafter
  subst hafter
  by_cases hok : env.getErr = none ∧ env.updateErr = none
  · rw [if_pos hok] at hchg ⊢
    cases ht : isTerminal echo.Status.Phase with
    | true => rw [advance_terminal (isTerminal_true ht)] at hchg; exact absurd rfl hchg
    | false => exact ⟨rfl, by simp [advance, ht]⟩
  · rw [if_neg hok] at hchg
    exact absurd rfl hchg

/-- C17: the status message written by a transition does not depend on the
previous status message: for two stored Echo resources that agree on name, spec
message, phase and `status.jobName`, passes that change the stored phase store
the same `status.message` for both. -/
theorem message_regenerated (env1 env2 : Env) (c1 c2 : Cluster) (req1 req2 : Request)
    (a b s1 s2 : Echo)
    (hs1 : c1.lookup req1.NamespacedName = some a) (hs2 : c2.lookup req2.NamespacedName = some b)
    (hname : a.Name = b.Name) (hspec : a.Spec.Message = b.Spec.Message)
    (hphase : a.Status.Phase = b.Status.Phase) (hjob : a.Status.JobName = b.Status.JobName)
    (h1 : (Reconcile env1 c1 req1).cluster.lookup req1.NamespacedName = some s1)
    (h2 : (Reconcile env2 c2 req2).cluster.lookup req2.NamespacedName = some s2)
    (hc1 : s1.Status.Phase ≠ a.Status.Phase) (hc2 : s2.Status.Phase ≠ b.Status.Phase) :
    s1.Status.Message = s2.Status.Message := by
  obtain ⟨ht, e1⟩ := Reconcile_changed hs1 h1 hc1
  obtain ⟨_, e2⟩ := Reconcile_changed hs2 h2 hc2
  rw [e1, e2]
  exact nextStatus_message_congr ht hname hspec hphase hjob

/-- C17, at two clusters holding `default/demo` in phase Running with the same
job name and the status messages `"old text"` and `"other text"`. -/
theorem message_regenerated_witness :
    (sampleCluster (sampleStatusMsg "Running" "echo-job-demo" "old text")).lookup
        sampleReq.NamespacedName
      = some (sampleEcho (sampleStatusMsg "Running" "echo-job-demo" "old text")) ∧
    (sampleCluster (sampleStatusMsg "Running" "echo-job-demo" "other text")).lookup
        sampleReq.NamespacedName
      = some (sampleEcho (sampleStatusMsg "Running" "echo-job-demo" "other text")) ∧
    (sampleEcho (sampleStatusMsg "Running" "echo-job-demo" "old text")).Status.Message
      ≠ (sampleEcho (sampleStatusMsg "Running" "echo-job-demo" "other text")).Status.Message ∧
    (Reconcile (envOk JobState.Succeeded)
        (sampleCluster (sampleStatusMsg "Running" "echo-job-demo" "old text"))
        sampleReq).cluster.lookup sampleReq.NamespacedName
      = some (advance (sampleEcho (sampleStatusMsg "Running" "echo-job-demo" "old text"))) ∧
    (Reconcile (envOk JobState.Succeeded)
        (sampleCluster (sampleStatusMsg "Running" "echo-job-demo" "other text"))
        sampleReq).cluster.lookup sampleReq.NamespacedName
      = some (advance (sampleEcho (sampleStatusMsg "Running" "echo-job-demo" "other text"))) ∧
    (advance (sampleEcho (sampleStatusMsg "Running" "echo-job-demo" "old text"))).Status.Message
      = "Job echo-job-demo completed successfully. Message \x27hello\x27 was echoed." ∧
    (advance (sampleEcho (sampleStatusMsg "Running" "echo-job-demo" "old text"))).Status.Message
      = (advance (sampleEcho
          (sampleStatusMsg "Running" "echo-job-demo" "other text"))).Status.Message :=
  ⟨by decide, by decide, by decide, by decide, by decide, by decide,
   message_regenerated (envOk JobState.Succeeded) (envOk JobState.Succeeded)
      (sampleCluster (sampleStatusMsg "Running" "echo-job-demo" "old text"))
      (sampleCluster (sampleStatusMsg "Running" "echo-job-demo" "other text"))
      sampleReq sampleReq
      (sampleEcho (sampleStatusMsg "Running" "echo-job-demo" "old text"))
      (sampleEcho (sampleStatusMsg "Running" "echo-job-demo" "other text"))
      (advance (sampleEcho (sampleStatusMsg "Running" "echo-job-demo" "old text")))
      (advance (sampleEcho (sampleStatusMsg "Running" "echo-job-demo" "other text")))
      (by decide) (by decide) rfl rfl rfl rfl (by decide) (by decide) (by decide) (by decide)⟩

/-! ## Store errors on the status update -/

/-- C18: for a stored Echo in a non-terminal phase, when the status update of a
fetched pass fails with a store error `e`, `Reconcile` returns exactly `e` with
the empty result (no requeue flag), and the stored resource is unchanged; in
particular the stored phase does not become Completed or Failed. -/
theorem reconcile_update_error (env : Env) (c : Cluster) (req : Request) (echo : Echo)
    (e : APIError)
    (hstored : c.lookup req.NamespacedName = some echo)
    (h3 : echo.Status.Phase ≠ EchoPhaseCompleted) (h4 : echo.Status.Phase ≠ EchoPhaseFailed)
    (hget : env.getErr = none) (hupd : env.updateErr = some e) :
    (Reconcile env c req).err = some e ∧
    (Reconcile env c req).result = Result.empty ∧
    (Reconcile env c req).result.Requeue = false ∧
    (Reconcile env c req).cluster.objects = c.objects ∧
    (Reconcile env c req).cluster.lookup req.NamespacedName = some echo ∧
    ∀ stored, (Reconcile env c req).cluster.lookup req.NamespacedName = some stored →
      stored.Status.Phase ≠ EchoPhaseCompleted ∧ stored.Status.Phase ≠ EchoPhaseFailed := by
  rw [Reconcile_reject hstored h3 h4 hget hupd]
  have hl : Cluster.lookup (rejected c echo (nextStatus echo)) req.NamespacedName = some echo :=
    hstored
  refine ⟨rfl, rfl, rfl, rfl, hl, ?_⟩
  intro stored hs
  have hl2 : Cluster.lookup (rejected c echo (nextStatus echo)) req.NamespacedName
      = some stored := hs
  rw [hl, Option.some.injEq] at hl2
  subst hl2
  exact ⟨h3, h4⟩

/-- C18, at the stored Echo `default/demo` with an unknown phase and a store
that answers the status update with ServiceUnavailable. -/
theorem reconcile_update_error_witness :
    (sampleCluster (sampleStatus "Bogus" "")).lookup sampleReq.NamespacedName
        = some (sampleEcho (sampleStatus "Bogus" "")) ∧
    (Reconcile envUpdateDown (sampleCluster (sampleStatus "Bogus" "")) sampleReq).err
      = some { Reason := StatusReason.ServiceUnavailable, Code := 503, Message := "etcd unavailable" } ∧
    (Reconcile envUpdateDown (sampleCluster (sampleStatus "Bogus" "")) sampleReq).result
      = Result.empty ∧
    (Reconcile envUpdateDown (sampleCluster (sampleStatus "Bogus" ""))
        sampleReq).cluster.lookup sampleReq.NamespacedName
      = some (sampleEcho (sampleStatus "Bogus" "")) :=
  ⟨by decide,
   (reconcile_update_error envUpdateDown (sampleCluster (sampleStatus "Bogus" "")) sampleReq
      (sampleEcho (sampleStatus "Bogus" ""))
      { Reason := StatusReason.ServiceUnavailable, Code := 503, Message := "etcd unavailable" }
      (by decide) (by decide) (by decide) rfl rfl).1,
   (reconcile_update_error envUpdateDown (sampleCluster (sampleStatus "Bogus" "")) sampleReq
      (sampleEcho (sampleStatus "Bogus" ""))
      { Reason := StatusReason.ServiceUnavailable, Code := 503, Message := "etcd unavailable" }
      (by decide) (by decide) (by decide) rfl rfl).2.1,
   (reconcile_update_error envUpdateDown (sampleCluster (sampleStatus "Bogus" "")) sampleReq
      (sampleEcho (sampleStatus "Bogus" ""))
      { Reason := StatusReason.ServiceUnavailable, Code := 503, Message := "etcd unavailable" }
      (by decide) (by decide) (by decide) rfl rfl).2.2.2.2.1⟩

/-! ## Convergence of the requeue loop -/

theorem isUnknown_ne {p : EchoPhase} (h : isUnknown p = true) :
    p ≠ "" ∧ p ≠ EchoPhasePending ∧ p ≠ EchoPhaseRunning ∧ p ≠ EchoPhaseCompleted ∧
      p ≠ EchoPhaseFailed := by
  simp only [isUnknown, Bool.not_eq_true', Bool.or_eq_false_iff, decide_eq_false_iff_not] at h
  obtain ⟨⟨⟨⟨h0, h1⟩, h2⟩, h3⟩, h4⟩ := h
  exact ⟨h0, h1, h2, h3, h4⟩

theorem passesLeft_unknown {p : EchoPhase} (h : isUnknown p = true) : passesLeft p = 3 := by
  obtain ⟨h0, h1, h2, h3, h4⟩ := isUnknown_ne h
  simp [passesLeft, h0, h1, h2, h3, h4]

/-- One committed pass shortens the path to a terminal phase by one. -/
theorem passesLeft_advance (echo : Echo) :
    passesLeft (advance echo).Status.Phase = passesLeft echo.Status.Phase - 1 := by
  rcases advance_phase echo with ⟨h, ha⟩ | ⟨h, ha⟩ | ⟨h, ha⟩ | ⟨h, ha⟩ | ⟨h, ha⟩
  · rw [h, ha]; decide
  · rw [h, ha]; decide
  · rw [h, ha]; decide
  · rw [ha]; rcases h with h | h <;> rw [h] <;> decide
  · rw [ha, passesLeft_unknown h]; decide

theorem passesLeft_iterate (echo : Echo) (k : Nat) :
    passesLeft (advance^[k] echo).Status.Phase = passesLeft echo.Status.Phase - k := by
  induction k with
  | zero => rfl
  | succ k ih => rw [Function.iterate_succ_apply', passesLeft_advance, ih]; omega

theorem passesLeft_le (p : EchoPhase) : passesLeft p ≤ 3 := by
  unfold passesLeft
  split_ifs <;> decide

/-- A phase is terminal exactly when no pass separates it from a terminal one. -/
theorem isTerminal_iff_passesLeft (p : EchoPhase) : isTerminal p = true ↔ passesLeft p = 0 := by
  constructor
  · intro h
    rcases isTerminal_true h with h | h <;> rw [h] <;> decide
  · intro h
    unfold passesLeft at h
    split_ifs at h with h0 h1 h2 h3 h4
    · simp [isTerminal, h3]
    · simp [isTerminal, h4]

/-- The result of a committed pass: requeue while at least two passes remain. -/
theorem nextResult_eq (echo : Echo) :
    nextResult echo
      = if 2 ≤ passesLeft echo.Status.Phase then Result.requeue else Result.empty := by
  unfold nextResult passesLeft
  split_ifs <;> first | rfl | omega

/-- The stored object after `k` passes whose store calls all succeed. -/
theorem lookup_clusterAfter {envs : Nat → Env} {c : Cluster} {req : Request} {echo : Echo}
    (hstored : c.lookup req.NamespacedName = some echo)
    (hok : ∀ k, (envs k).getErr = none ∧ (envs k).updateErr = none) (k : Nat) :
    (clusterAfter envs c req k).lookup req.NamespacedName = some (advance^[k] echo) := by
  induction k with
  | zero => exact hstored
  | succ k ih =>
    rw [Function.iterate_succ_apply']
    exact (Reconcile_advance ih (hok k).1 (hok k).2).2.2

/-- C19: for every stored Echo in any phase, unset and unknown included, when
every fetch and status update succeeds there is a number `n` of passes, at most
three, after which the stored phase is terminal and stays so (and before which
it is not); every pass before pass `n` returns `Result{Requeue: true}`, and
pass `n` and every later pass return the empty result; no pass returns an
error. -/
theorem passes_converge (envs : Nat → Env) (c : Cluster) (req : Request) (echo : Echo)
    (hstored : c.lookup req.NamespacedName = some echo)
    (hok : ∀ k, (envs k).getErr = none ∧ (envs k).updateErr = none) :
    ∃ n, n ≤ 3 ∧
      (∀ k, n ≤ k → ∃ s, (clusterAfter envs c req k).lookup req.NamespacedName = some s ∧
        isTerminal s.Status.Phase = true) ∧
      (∀ k, k < n → ∃ s, (clusterAfter envs c req k).lookup req.NamespacedName = some s ∧
        isTerminal s.Status.Phase = false) ∧
      (∀ k, k + 1 < n → (passOutcome envs c req k).result = Result.requeue) ∧
      (∀ k, n ≤ k + 1 → (passOutcome envs c req k).result = Result.empty) ∧
      (∀ k, (passOutcome envs c req k).err = none) := by
  have hl := lookup_clusterAfter hstored hok
  have hres : ∀ k, (passOutcome envs c req k).result
      = if 2 ≤ passesLeft echo.Status.Phase - k then Result.requeue else Result.empty := by
    intro k
    unfold passOutcome
    rw [(Reconcile_advance (hl k) (hok k).1 (hok k).2).1, nextResult_eq, passesLeft_iterate]
  refine ⟨passesLeft echo.Status.Phase, passesLeft_le _, ?_, ?_, ?_, ?_, ?_⟩
  · intro k hk
    refine ⟨_, hl k, ?_⟩
    rw [isTerminal_iff_passesLeft, passesLeft_iterate]
    omega
  · intro k hk
    refine ⟨_, hl k, ?_⟩
    cases ht : isTerminal (advance^[k] echo).Status.Phase with
    | false => rfl
    | true =>
      rw [isTerminal_iff_passesLeft, passesLeft_iterate] at ht
      omega
  · intro k hk
    rw [hres k, if_pos (by omega)]
  · intro k hk
    rw [hres k, if_neg (by omega)]
  · intro k
    exact (Reconcile_advance (hl k) (hok k).1 (hok k).2).2.1

/-- C19, at the stored Echo `default/demo` with the unknown phase `"Bogus"`:
passes one and two return requeue, pass three stores Completed, and passes
three and four return the empty result. -/
theorem passes_converge_witness :
    (sampleCluster (sampleStatus "Bogus" "")).lookup sampleReq.NamespacedName
        = some (sampleEcho (sampleStatus "Bogus" "")) ∧
    (passOutcome (fun _ => envOk JobState.Succeeded) (sampleCluster (sampleStatus "Bogus" ""))
        sampleReq 0).result = Result.requeue ∧
    (passOutcome (fun _ => envOk JobState.Succeeded) (sampleCluster (sampleStatus "Bogus" ""))
        sampleReq 1).result = Result.requeue ∧
    (passOutcome (fun _ => envOk JobState.Succeeded) (sampleCluster (sampleStatus "Bogus" ""))
        sampleReq 2).result = Result.empty ∧
    (passOutcome (fun _ => envOk JobState.Succeeded) (sampleCluster (sampleStatus "Bogus" ""))
        sampleReq 3).result = Result.empty ∧
    ((clusterAfter (fun _ => envOk JobState.Succeeded) (sampleCluster (sampleStatus "Bogus" ""))
        sampleReq 3).lookup sampleReq.NamespacedName).map (fun e => e.Status.Phase)
      = some "Completed" ∧
    ∃ n, n ≤ 3 ∧
      (∀ k, n ≤ k → ∃ s, (clusterAfter (fun _ => envOk JobState.Succeeded)
          (sampleCluster (sampleStatus "Bogus" "")) sampleReq k).lookup sampleReq.NamespacedName
            = some s ∧ isTerminal s.Status.Phase = true) ∧
      (∀ k, n ≤ k + 1 → (passOutcome (fun _ => envOk JobState.Succeeded)
          (sampleCluster (sampleStatus "Bogus" "")) sampleReq k).result = Result.empty) :=
  ⟨by decide, by decide, by decide, by decide, by decide, by decide,
   (passes_converge (fun _ => envOk JobState.Succeeded) (sampleCluster (sampleStatus "Bogus" ""))
      sampleReq (sampleEcho (sampleStatus "Bogus" "")) (by decide) (fun _ => ⟨rfl, rfl⟩)).imp
        (fun _ h => ⟨h.1, h.2.1, h.2.2.2.2.1⟩)⟩

end EchoOperator
